import Mathlib

/-!
# Node resource aggregation of the runai CLI (pkg/nodes/node_info.go)

A shallow embedding of `getPodsOnSpecificNode`, `hasError`,
`setGpusFromPromDataAndPods`, `NodeInfo.GetResourcesStatus` and
`GetAllNodeInfos`, and of the project-flag resolution of
cmd/arena/commands/flags/util.go (namespace `RunaiFlags`).

Conventions of the embedding:

* Go `float64` quantities are exact rationals (`ℚ`); `int(x)` is truncation
  toward zero (`goInt`), `float64(n)` is the cast of an integer. GPU counts and
  shares are far inside the range where both conversions are exact.
* Go `int` is `Int`; `len` of a map is the number of entries of an `AList`.
  The sum `GPUsInUse` is computed as the 64-bit machine does: the conversion of
  the summed limits is `goInt64` and the addition wraps (`wrapInt64`).
* A function that writes through a pointer takes the old value and returns the
  new one (together with its `error`, `none` standing for `nil`).
* Calls on the cluster and on the metrics backend are values of a `Cluster`;
  the calls made are recorded in order, and printed lines are returned as a list.
* The functions node_info.go calls in other packages (`cmd/util`,
  `pkg/helpers`, `pkg/prometheus`) are the fields of `Helpers`; the theorems
  quantify over them.
-/

namespace RunaiNodes

/-! ## Data model -/

/-- Go `error` values; `Option Error` is a possibly-nil error. -/
abbrev Error := String

/-- Kubernetes `v1.ResourceList`: resource name to quantity. -/
abbrev KubeResourceList := List (String × ℚ)

/-- Kubernetes `v1.PodPhase`. -/
inductive PodPhase where
  | PodPending
  | PodRunning
  | PodSucceeded
  | PodFailed
  | PodUnknown
  deriving DecidableEq

/-- Kubernetes `v1.NodeStatus`, the fields the aggregator and its helpers read. -/
structure NodeStatus where
  Capacity : KubeResourceList := []
  Allocatable : KubeResourceList := []
  Ready : Bool := true
  deriving DecidableEq

/-- Kubernetes `v1.Node`. -/
structure Node where
  Name : String := ""
  Labels : List (String × String) := []
  Status : NodeStatus := {}
  deriving DecidableEq

/-- Kubernetes `v1.PodSpec`: the node binding and the summed container
requests and limits. -/
structure PodSpec where
  NodeName : String := ""
  Requests : KubeResourceList := []
  Limits : KubeResourceList := []
  deriving DecidableEq

/-- Kubernetes `v1.PodStatus`. -/
structure PodStatus where
  Phase : PodPhase := PodPhase.PodPending
  deriving DecidableEq

/-- Kubernetes `v1.Pod`. `SharedGpu` is the fractional-GPU marker: the physical
GPU index the pod is bound to and its share, when the pod carries one. -/
structure Pod where
  Name : String := ""
  Spec : PodSpec := {}
  Status : PodStatus := {}
  SharedGpu : Option (String × ℚ) := none
  deriving DecidableEq

/-- Modelled from the spec: `types.ResourceList` (pkg/types), the spec's
ResourceQuantity: the vector CPU, Memory, GPUs, GPU Memory. The Go zero value is
all zeros. -/
structure ResourceList where
  CPUs : ℚ := 0
  Memory : ℚ := 0
  GPUs : ℚ := 0
  GPUMemory : ℚ := 0
  deriving DecidableEq

/-- Modelled from the spec: `types.PodResourcesStatus` (pkg/types), the per-pod
rollup of Requested / Allocated / Limited. -/
structure PodResourcesStatus where
  Requested : ResourceList := {}
  Allocated : ResourceList := {}
  Limited : ResourceList := {}
  deriving DecidableEq

/-- Modelled from the spec: `types.GPU` (pkg/types), the per-device record; the
field names are those node_info.go assigns. -/
structure GPU where
  IndexID : String := ""
  Allocated : ℚ := 0
  Memory : ℚ := 0
  MemoryUsage : ℚ := 0
  MemoryUtilization : ℚ := 0
  MemoryUsageAndUtilization : String := ""
  IdleTime : ℚ := 0
  Utilization : ℚ := 0
  deriving DecidableEq

/-- Modelled from the spec: `types.NodeResourcesStatus` (pkg/types); the field
names are those node_info.go assigns. The Go zero value is all zeros with a nil
`NodeGPUs` slice. -/
structure NodeResourcesStatus where
  Requested : ResourceList := {}
  Allocated : ResourceList := {}
  Limited : ResourceList := {}
  Capacity : ResourceList := {}
  Allocatable : ResourceList := {}
  Usage : ResourceList := {}
  NumberOfFractionalAllocatedGpu : Int := 0
  GPUsInUse : Int := 0
  NodeGPUs : List GPU := []
  deriving DecidableEq

/-- One label-tagged scalar of a query result. -/
structure MetricResult where
  Labels : List (String × String) := []
  Value : ℚ := 0
  deriving DecidableEq

/-- Modelled from the spec: `prom.MetricResultsByQueryName` (pkg/prometheus), a
mapping from a query name to its raw result set. A nil map is `none` in
`NodeInfo.PrometheusData`. -/
abbrev MetricResultsByQueryName := List (String × List MetricResult)

/-- A Go `map[string]float64`. -/
abbrev FloatMap := AList (fun _ : String => ℚ)

/-- A Go `map[string]map[string]float64`; the entry order stands for the order
in which `range` visits the map. -/
abbrev GroupedMetrics := AList (fun _ : String => FloatMap)

/-- Indexing a Go `map[string]float64`: the zero value for a missing key. -/
def FloatMap.at (m : FloatMap) (key : String) : ℚ :=
  (m.lookup key).getD 0

/-- Go's `int(x)` of a `float64`: truncation toward zero. -/
def goInt (x : ℚ) : Int :=
  x.num.tdiv (x.den : Int)

/-- The least value of Go's 64-bit `int`. -/
def minInt64 : Int := -(2 ^ 63)

/-- Go's `int(x)` of a `float64` on a 64-bit platform: truncation toward zero
when the truncated value fits the 64-bit `int`. Outside that range Go leaves the
result to the implementation; the value taken is that of amd64, the least
`int`. -/
def goInt64 (x : ℚ) : Int :=
  if minInt64 ≤ goInt x ∧ goInt x < 2 ^ 63 then goInt x else minInt64

/-- The wrap-around of 64-bit `int` arithmetic: the representative of `z`
modulo `2 ^ 64` between `-(2 ^ 63)` and `2 ^ 63 - 1`. -/
def wrapInt64 (z : Int) : Int :=
  (z + 2 ^ 63) % 2 ^ 64 - 2 ^ 63

/-- The `NodeInfo` struct of node_info.go. -/
structure NodeInfo where
  Node : Node := {}
  Pods : List Pod := []
  PrometheusData : Option MetricResultsByQueryName := none

/-! ## Prometheus query names (the constants of node_info.go) -/

def TotalGpusMemoryPQ : String := "totalGpusMemory"
def UsedGpusMemoryPQ : String := "usedGpusMemory"
def UsedCpusMemoryPQ : String := "usedCpusMemory"
def UsedCpusPQ : String := "usedCpus"
def UsedGpusPQ : String := "usedGpus"
def GpuIdleTimePQ : String := "gpuIdleTime"
def UsedGpuPQ : String := "usedGpu"
def GpuUsedByPod : String := "gpuUsedByPod"
def UsedGpuMemoryPQ : String := "usedGpuMemory"
def TotalGpuMemoryPQ : String := "totalGpuMemory"

/-! ## The functions node_info.go imports -/

/-- The functions of `cmd/util`, `pkg/helpers` and `pkg/prometheus` that
node_info.go calls. Their bodies lie outside node_info.go, so they are
parameters of the embedding. -/
structure Helpers where
  /-- The function `util.IsNodeReady(node)`. -/
  IsNodeReady : Node → Bool
  /-- The function `util.AllocatableGpuInNodeIncludingFractions(node)`. -/
  AllocatableGpuInNodeIncludingFractions : Node → ℚ
  /-- The function `util.GetSharedGPUsIndexUsedInPods(pods)`: physical GPU
  index to the share allocated on it. -/
  GetSharedGPUsIndexUsedInPods : List Pod → FloatMap
  /-- The function `helpers.GetPodResourceStatus(pod)`. -/
  GetPodResourceStatus : Pod → PodResourcesStatus
  /-- The function `helpers.AddToPodResourcesStatus(&acc, status)`, old
  accumulator in, new accumulator out. -/
  AddToPodResourcesStatus : PodResourcesStatus → PodResourcesStatus → PodResourcesStatus
  /-- The function `helpers.AddKubeResourceListToResourceList(&rl, krl)`, old
  `rl` in, new `rl` out. -/
  AddKubeResourceListToResourceList : ResourceList → KubeResourceList → ResourceList
  /-- The function `helpers.MemoryUsageAndUtilization(usage, memory)`. -/
  MemoryUsageAndUtilization : ℚ → ℚ → String × ℚ
  /-- The function `prom.SetFloatFromFirstMetric(&num, data, name)`: old
  `num` in, new `num` and the error out. -/
  SetFloatFromFirstMetric : ℚ → MetricResultsByQueryName → String → ℚ × Option Error
  /-- The function `prom.GroupMetrics(label, data, names...)`. -/
  GroupMetrics : String → MetricResultsByQueryName → List String → Except Error GroupedMetrics

/-! ## node_info.go -/

/-- The function `getPodsOnSpecificNode(node, allActivePods)`. -/
def getPodsOnSpecificNode (H : Helpers) (node : Node) (allActivePods : List Pod) : List Pod :=
  if !H.IsNodeReady node then
    []
  else
    allActivePods.foldl
      (fun pods pod =>
        if pod.Spec.NodeName = node.Name ∧
            (pod.Status.Phase = PodPhase.PodRunning ∨ pod.Status.Phase = PodPhase.PodPending) then
          pods ++ [pod]
        else
          pods)
      []

/-- The function `hasError(errors...)`: the first non-nil error, or nil. -/
def hasError : List (Option Error) → Option Error
  | [] => none
  | some err :: _ => some err
  | none :: errors => hasError errors

/-- One iteration of the loop of `setGpusFromPromDataAndPods`: the record
appended for `gpuIndex` and its metric values. -/
def gpuRecord (H : Helpers) (fractionAllocatedGpus : FloatMap) (gpuIndex : String)
    (valuesByQueryNames : FloatMap) : GPU :=
  let allocated := valuesByQueryNames.at GpuUsedByPod
  let allocated :=
    match fractionAllocatedGpus.lookup gpuIndex with
    | some fractionAllocated => fractionAllocated
    | none => allocated
  let memory := valuesByQueryNames.at TotalGpuMemoryPQ
  let usage := valuesByQueryNames.at UsedGpuMemoryPQ
  let mu := H.MemoryUsageAndUtilization usage memory
  { IndexID := gpuIndex
    Allocated := allocated
    Memory := memory
    MemoryUsage := usage
    MemoryUtilization := mu.2
    MemoryUsageAndUtilization := mu.1
    IdleTime := valuesByQueryNames.at GpuIdleTimePQ
    Utilization := valuesByQueryNames.at UsedGpuPQ }

/-- The function `setGpusFromPromDataAndPods(value, data, pods)`: the old
`*value` in, the new `*value` and the returned error out. -/
def setGpusFromPromDataAndPods (H : Helpers) (value : List GPU)
    (data : MetricResultsByQueryName) (pods : List Pod) : List GPU × Option Error :=
  match H.GroupMetrics "gpu" data
      [GpuIdleTimePQ, UsedGpuPQ, UsedGpuMemoryPQ, TotalGpuMemoryPQ, GpuUsedByPod] with
  | Except.error err => (value, some err)
  | Except.ok metricsValuesByGpus =>
    let fractionAllocatedGpus := H.GetSharedGPUsIndexUsedInPods pods
    let result := metricsValuesByGpus.entries.foldl
      (fun result entry => result ++ [gpuRecord H fractionAllocatedGpus entry.1 entry.2])
      []
    (result, none)

/-- The accumulation loop opening `GetResourcesStatus`: the pod statuses summed
into a zero-valued `PodResourcesStatus`. -/
def podResStatus (H : Helpers) (pods : List Pod) : PodResourcesStatus :=
  pods.foldl (fun acc pod => H.AddToPodResourcesStatus acc (H.GetPodResourceStatus pod)) {}

/-- The value `totalGpus` of `GetResourcesStatus`. -/
def totalGpus (H : Helpers) (ni : NodeInfo) : Int :=
  goInt (H.AllocatableGpuInNodeIncludingFractions ni.Node)

/-- The part of `GetResourcesStatus` that uses the cluster data only (the
statements before the `PrometheusData` test). -/
def kubeResourcesStatus (H : Helpers) (ni : NodeInfo) : NodeResourcesStatus :=
  let nodeResStatus : NodeResourcesStatus := {}
  let podResStatus := podResStatus H ni.Pods
  let nodeResStatus := { nodeResStatus with Requested := podResStatus.Requested }
  let nodeResStatus := { nodeResStatus with Allocated := podResStatus.Requested }
  let nodeResStatus := { nodeResStatus with
    Allocated := { nodeResStatus.Allocated with GPUs := podResStatus.Allocated.GPUs } }
  let nodeResStatus := { nodeResStatus with Limited := podResStatus.Limited }
  let nodeResStatus := { nodeResStatus with
    Capacity := H.AddKubeResourceListToResourceList nodeResStatus.Capacity ni.Node.Status.Capacity }
  let totalGpus := totalGpus H ni
  let isFractionRunningOnNode : Bool := decide (totalGpus > goInt nodeResStatus.Capacity.GPUs)
  let nodeResStatus :=
    if isFractionRunningOnNode then
      let nodeResStatus := { nodeResStatus with
        NumberOfFractionalAllocatedGpu :=
          ((H.GetSharedGPUsIndexUsedInPods ni.Pods).entries.length : Int) }
      let nodeResStatus := { nodeResStatus with
        Capacity := { nodeResStatus.Capacity with GPUs := (totalGpus : ℚ) } }
      { nodeResStatus with
        Allocatable := { nodeResStatus.Allocatable with
          GPUs := nodeResStatus.Allocatable.GPUs
            + (nodeResStatus.NumberOfFractionalAllocatedGpu : ℚ) } }
    else
      nodeResStatus
  let nodeResStatus := { nodeResStatus with
    Allocatable :=
      H.AddKubeResourceListToResourceList nodeResStatus.Allocatable ni.Node.Status.Allocatable }
  { nodeResStatus with
    GPUsInUse :=
      wrapInt64 (nodeResStatus.NumberOfFractionalAllocatedGpu + goInt64 podResStatus.Limited.GPUs) }

/-- The node's raw reported capacity: `nodeResStatus.Capacity` as it stands
after `AddKubeResourceListToResourceList` has filled the zero-valued vector from
`Node.Status.Capacity`, before any override. -/
def rawCapacity (H : Helpers) (ni : NodeInfo) : ResourceList :=
  H.AddKubeResourceListToResourceList {} ni.Node.Status.Capacity

/-- The node's raw reported allocatable: what `AddKubeResourceListToResourceList`
makes of `Node.Status.Allocatable` on a zero-valued vector. -/
def rawAllocatable (H : Helpers) (ni : NodeInfo) : ResourceList :=
  H.AddKubeResourceListToResourceList {} ni.Node.Status.Allocatable

/-- The test `isFractionRunningOnNode` of `GetResourcesStatus`. -/
def isFractionRunningOnNode (H : Helpers) (ni : NodeInfo) : Prop :=
  totalGpus H ni > goInt (rawCapacity H ni).GPUs

instance (H : Helpers) (ni : NodeInfo) : Decidable (isFractionRunningOnNode H ni) :=
  inferInstanceAs (Decidable (totalGpus H ni > goInt (rawCapacity H ni).GPUs))

/-- The number of distinct physical GPU indices the node's pods share:
`len(util.GetSharedGPUsIndexUsedInPods(ni.Pods))`. -/
def sharedGpuCount (H : Helpers) (ni : NodeInfo) : Nat :=
  (H.GetSharedGPUsIndexUsedInPods ni.Pods).entries.length

/-- The six metric extractions of `GetResourcesStatus`, all evaluated as the
arguments of `hasError`: the status after them and the six returned errors in
argument order. -/
def extractPrometheusData (H : Helpers) (nodeResStatus : NodeResourcesStatus)
    (data : MetricResultsByQueryName) (pods : List Pod) :
    NodeResourcesStatus × List (Option Error) :=
  let r1 := H.SetFloatFromFirstMetric nodeResStatus.Usage.CPUs data UsedCpusPQ
  let nodeResStatus := { nodeResStatus with Usage := { nodeResStatus.Usage with CPUs := r1.1 } }
  let r2 := H.SetFloatFromFirstMetric nodeResStatus.Usage.GPUs data UsedGpusPQ
  let nodeResStatus := { nodeResStatus with Usage := { nodeResStatus.Usage with GPUs := r2.1 } }
  let r3 := H.SetFloatFromFirstMetric nodeResStatus.Usage.Memory data UsedCpusMemoryPQ
  let nodeResStatus := { nodeResStatus with Usage := { nodeResStatus.Usage with Memory := r3.1 } }
  let r4 := H.SetFloatFromFirstMetric nodeResStatus.Usage.GPUMemory data UsedGpusMemoryPQ
  let nodeResStatus := { nodeResStatus with
    Usage := { nodeResStatus.Usage with GPUMemory := r4.1 } }
  let r5 := H.SetFloatFromFirstMetric nodeResStatus.Capacity.GPUMemory data TotalGpusMemoryPQ
  let nodeResStatus := { nodeResStatus with
    Capacity := { nodeResStatus.Capacity with GPUMemory := r5.1 } }
  let r6 := setGpusFromPromDataAndPods H nodeResStatus.NodeGPUs data pods
  let nodeResStatus := { nodeResStatus with NodeGPUs := r6.1 }
  (nodeResStatus, [r1.2, r2.2, r3.2, r4.2, r5.2, r6.2])

/-- The method `NodeInfo.GetResourcesStatus` together with the error it hands
to `log.Debugf` (`none` when nothing is logged). -/
def GetResourcesStatusAndLog (H : Helpers) (ni : NodeInfo) :
    NodeResourcesStatus × Option Error :=
  let nodeResStatus := kubeResourcesStatus H ni
  match ni.PrometheusData with
  | some data =>
    let r := extractPrometheusData H nodeResStatus data ni.Pods
    (r.1, hasError r.2)
  | none => (nodeResStatus, none)

/-- The method `NodeInfo.GetResourcesStatus`. -/
def GetResourcesStatus (H : Helpers) (ni : NodeInfo) : NodeResourcesStatus :=
  (GetResourcesStatusAndLog H ni).1

/-! ## node_info.go: the snapshot of all nodes -/

/-- A Go `map[string]MetricResultsByQueryName` (`prom.MetricResultsByItems`):
the metrics of every item (node) by its label value. A stored nil map is `none`. -/
abbrev MetricResultsByItems := AList (fun _ : String => Option MetricResultsByQueryName)

/-- Indexing a `MetricResultsByItems`: nil for a missing key. -/
def MetricResultsByItems.at (m : MetricResultsByItems) (key : String) :
    Option MetricResultsByQueryName :=
  (m.lookup key).join

/-- The handle `prom.BuildPrometheusClient` returns. -/
structure PromClient where
  Address : String := ""
  deriving DecidableEq

/-- The calls `GetAllNodeInfos` makes on its collaborators. -/
inductive Call where
  | AcquireAllActivePods
  | ListNodes
  | BuildPrometheusClient
  | GroupMultiQueriesToItems
  deriving DecidableEq

/-- The variable `promethesNodeLabelID` of node_info.go. -/
def promethesNodeLabelID : String := "node"

/-- The variable `nodePQs` of node_info.go: query name to query. -/
def nodePQs : List (String × String) :=
  [ (TotalGpusMemoryPQ, "(sum(runai_node_gpu_total_memory * 1024 * 1024) by (node))"),
    (UsedGpusPQ, "((sum(runai_node_gpu_utilization) by (node)) / on (node) (count(runai_node_gpu_utilization) by (node)))"),
    (UsedGpusMemoryPQ, "(sum(runai_node_gpu_used_memory * 1024 * 1024) by (node))"),
    (UsedCpusMemoryPQ, "runai_node_memory_used_bytes"),
    (UsedCpusPQ, "runai_node_cpu_utilization * 100"),
    (UsedGpuPQ, "(sum(runai_node_gpu_utilization) by (node, gpu))"),
    (UsedGpuMemoryPQ, "(sum(runai_node_gpu_used_memory * 1024 * 1024) by (node, gpu))"),
    (TotalGpuMemoryPQ, "(sum(runai_node_gpu_total_memory * 1024 * 1024) by (node, gpu))"),
    (GpuIdleTimePQ, "(sum(time()-runai_node_gpu_last_not_idle_time) by (node, gpu))"),
    (GpuUsedByPod, "sum(runai_gpus_is_running_with_pod2 * 100) by (node, gpu)") ]

/-- The cluster and the metrics backend as `GetAllNodeInfos` sees them: what
each call on the `kubernetes.Interface` client and on the Prometheus client
returns. `GroupMultiQueriesToItems` returns its map and its error side by side,
as the Go function does, because `GetAllNodeInfos` keeps the map whatever the
error is. -/
structure Cluster where
  /-- The call `trainer.AcquireAllActivePods(client)`. -/
  AcquireAllActivePods : Except Error (List Pod)
  /-- The call `client.CoreV1().Nodes().List(...)`, its `Items`. -/
  ListNodes : Except Error (List Node)
  /-- The call `prom.BuildPrometheusClient(client)`. -/
  BuildPrometheusClient : Except Error PromClient
  /-- The call `promClient.GroupMultiQueriesToItems(queries, label)`. -/
  GroupMultiQueriesToItems :
    PromClient → List (String × String) → String → Option MetricResultsByItems × Option Error

/-- The three values `GetAllNodeInfos` returns, and the calls it made, in order. -/
structure NodeInfosResult where
  nodeInfoList : List NodeInfo := []
  warning : String := ""
  err : Option Error := none
  calls : List Call := []

/-- The warning `GetAllNodeInfos` formats from a metrics error. -/
def metricsWarning (promErr : Error) : String :=
  "Missing some data. \nreason: Can\x27t access to the prometheus server, \ncause error: "
    ++ promErr

/-- The block `if shouldQueryMetrics` of `GetAllNodeInfos`: the value of
`promData` and of `warning` after it, and the calls it made. -/
def queryMetrics (client : Cluster) (shouldQueryMetrics : Bool) :
    Option MetricResultsByItems × String × List Call :=
  if shouldQueryMetrics then
    match client.BuildPrometheusClient with
    | Except.ok promClient =>
      let r := client.GroupMultiQueriesToItems promClient nodePQs promethesNodeLabelID
      match r.2 with
      | some promErr =>
        (r.1, metricsWarning promErr, [Call.BuildPrometheusClient, Call.GroupMultiQueriesToItems])
      | none => (r.1, "", [Call.BuildPrometheusClient, Call.GroupMultiQueriesToItems])
    | Except.error promErr => (none, metricsWarning promErr, [Call.BuildPrometheusClient])
  else
    (none, "", [])

/-- The `NodeInfo` the loop of `GetAllNodeInfos` builds for one node. -/
def nodeInfoOf (H : Helpers) (allActivePods : List Pod) (promData : Option MetricResultsByItems)
    (node : Node) : NodeInfo :=
  let pods := getPodsOnSpecificNode H node allActivePods
  let nodeInfo : NodeInfo := { Node := node, Pods := pods }
  match promData with
  | some data => { nodeInfo with PrometheusData := data.at nodeInfo.Node.Name }
  | none => nodeInfo

/-- The function `GetAllNodeInfos(client, shouldQueryMetrics)`. -/
def GetAllNodeInfos (H : Helpers) (client : Cluster) (shouldQueryMetrics : Bool) :
    NodeInfosResult :=
  let warning : String := ""
  let nodeInfoList : List NodeInfo := []
  match client.AcquireAllActivePods with
  | Except.error err =>
    { nodeInfoList := [], warning := "", err := some err, calls := [Call.AcquireAllActivePods] }
  | Except.ok allActivePods =>
    match client.ListNodes with
    | Except.error err =>
      { nodeInfoList := nodeInfoList, warning := warning, err := some err,
        calls := [Call.AcquireAllActivePods, Call.ListNodes] }
    | Except.ok nodeList =>
      let q := queryMetrics client shouldQueryMetrics
      let nodeInfoList := nodeList.foldl
        (fun nodeInfoList node => nodeInfoList ++ [nodeInfoOf H allActivePods q.1 node])
        nodeInfoList
      { nodeInfoList := nodeInfoList, warning := q.2.1, err := none,
        calls := [Call.AcquireAllActivePods, Call.ListNodes] ++ q.2.2 }

/-- The error of the two listings: that of the pod listing, else that of the
node listing, else nil. -/
def listingError (client : Cluster) : Option Error :=
  match client.AcquireAllActivePods with
  | Except.error err => some err
  | Except.ok _ =>
    match client.ListNodes with
    | Except.error err => some err
    | Except.ok _ => none

end RunaiNodes

namespace RunaiFlags

/-! ## cmd/arena/commands/flags/util.go -/

/-- Go `error` values; `Option Error` is a possibly-nil error. -/
abbrev Error := String

/-- The struct `types.NamespaceInfo`, the fields util.go reads and writes. -/
structure NamespaceInfo where
  Namespace : String := ""
  ProjectName : String := ""
  BackwardCompatability : Bool := false
  deriving DecidableEq

/-- Go's `strconv.ParseBool`. -/
def ParseBool (str : String) : Except Error Bool :=
  if str = "1" ∨ str = "t" ∨ str = "T" ∨ str = "TRUE" ∨ str = "true" ∨ str = "True" then
    Except.ok true
  else if str = "0" ∨ str = "f" ∨ str = "F" ∨ str = "FALSE" ∨ str = "false" ∨ str = "False" then
    Except.ok false
  else
    Except.error "invalid syntax"

/-- What util.go reads from outside: the command's flags, the constants of the
package and of `constants`, and the calls on the client. -/
structure Env where
  /-- The constant `BackwardCompitableFlag`, the name of the -b flag. -/
  BackwardCompitableFlag : String
  /-- The constant `ProjectFlag`, the name of the -p flag. -/
  ProjectFlag : String
  /-- The constant `constants.RUNAI_QUEUE_LABEL`. -/
  RUNAI_QUEUE_LABEL : String
  /-- The string `cmd.Flags().Lookup(name).Value.String()` of a registered flag. -/
  flagValue : String → String
  /-- The function `util.GetNamespaceFromProjectName(project, kubeClient)`:
  the namespace and the error, both returned. -/
  GetNamespaceFromProjectName : String → String × Option Error
  /-- The method `kubeClient.GetDefaultNamespace()`. -/
  GetDefaultNamespace : String
  /-- The call `Namespaces().Get(name, ...)`: the labels of the namespace, nil
  or a map. -/
  GetNamespaceLabels : String → Except Error (Option (List (String × String)))

/-- The function `getFlagValue(cmd, name)`. -/
def getFlagValue (env : Env) (name : String) : String :=
  env.flagValue name

/-- The function `getProjectRelatedToNamespace(namespaceName, kubeClient)`. -/
def getProjectRelatedToNamespace (env : Env) (namespaceName : String) : String × Option Error :=
  match env.GetNamespaceLabels namespaceName with
  | Except.error err => ("", some err)
  | Except.ok none => ("", none)
  | Except.ok (some labels) => ((labels.lookup env.RUNAI_QUEUE_LABEL).getD "", none)

/-- The function `getNamespaceInfoToUseFromProjectFlag(cmd, kubeClient)`. -/
def getNamespaceInfoToUseFromProjectFlag (env : Env) : NamespaceInfo × Option Error :=
  let backwardCompitabilityString := getFlagValue env env.BackwardCompitableFlag
  match ParseBool backwardCompitabilityString with
  | Except.error err => ({}, some err)
  | Except.ok backwardCompitability =>
    if backwardCompitability then
      ({ Namespace := "default", BackwardCompatability := true }, none)
    else
      let flagValue := getFlagValue env env.ProjectFlag
      if flagValue ≠ "" then
        let r := env.GetNamespaceFromProjectName flagValue
        ({ Namespace := r.1, ProjectName := flagValue }, r.2)
      else
        let namespace_ := env.GetDefaultNamespace
        let r := getProjectRelatedToNamespace env namespace_
        match r.2 with
        | some err => ({ Namespace := "", ProjectName := "" }, some err)
        | none => ({ Namespace := namespace_, ProjectName := r.1 }, none)

/-- The function `shouldPrintSetDefaultMessage(namespaceInfo, ignoreBackwardFlagOnError)`. -/
def shouldPrintSetDefaultMessage (namespaceInfo : NamespaceInfo)
    (ignoreBackwardFlagOnError : Bool) : Bool :=
  namespaceInfo.ProjectName = "" &&
    (ignoreBackwardFlagOnError || !namespaceInfo.BackwardCompatability)

/-- The line `getNamespaceToUseFromProjectFlag` prints. -/
def setDefaultMessage : String :=
  "Please set a default project by running ‘runai project set <project-name>’ or use the flag -p to use a specific project."

/-- The function `getNamespaceToUseFromProjectFlag(cmd, kubeClient, ignoreBackwardFlagOnError)`:
the two returned values and the lines printed. -/
def getNamespaceToUseFromProjectFlag (env : Env) (ignoreBackwardFlagOnError : Bool) :
    (NamespaceInfo × Option Error) × List String :=
  let r := getNamespaceInfoToUseFromProjectFlag env
  match r.2 with
  | some err => ((r.1, some err), [])
  | none =>
    if shouldPrintSetDefaultMessage r.1 ignoreBackwardFlagOnError then
      ((r.1, none), [setDefaultMessage])
    else
      ((r.1, none), [])

/-- The function `GetNamespaceToUseFromProjectFlagAndPrintError(cmd, kubeClient)`. -/
def GetNamespaceToUseFromProjectFlagAndPrintError (env : Env) :
    (NamespaceInfo × Option Error) × List String :=
  getNamespaceToUseFromProjectFlag env true

/-- The function `GetNamespaceToUseFromProjectFlag(cmd, kubeClient)`. -/
def GetNamespaceToUseFromProjectFlag (env : Env) :
    (NamespaceInfo × Option Error) × List String :=
  getNamespaceToUseFromProjectFlag env false

/-- An invocation with -b: the flag value is `true`, no project flag. -/
def backwardEnv : Env :=
  { BackwardCompitableFlag := "backward-compatibility"
    ProjectFlag := "project"
    RUNAI_QUEUE_LABEL := "runai/queue"
    flagValue := fun name => if name = "backward-compatibility" then "true" else ""
    GetNamespaceFromProjectName := fun project => ("runai-" ++ project, none)
    GetDefaultNamespace := "default"
    GetNamespaceLabels := fun _ => Except.ok none }

/-- An invocation without -b and without -p, the default namespace carrying
no project label. -/
def noProjectEnv : Env :=
  { backwardEnv with
    flagValue := fun name => if name = "backward-compatibility" then "false" else "" }

/-- An invocation with `-p team-a`. -/
def projectEnv : Env :=
  { backwardEnv with
    flagValue := fun name => if name = "backward-compatibility" then "false" else "team-a" }

end RunaiFlags

namespace RunaiNodes

/-! ## A concrete instance of the imported functions

The behaviour the spec describes for the imported helpers, used to evaluate the
functions above on concrete clusters. -/

/-- The quantity a `v1.ResourceList` holds for a resource name, zero when the
name is missing. -/
def kubeQuantity (krl : KubeResourceList) (name : String) : ℚ :=
  match krl.lookup name with
  | some q => q
  | none => 0

/-- The resource name of whole NVIDIA GPUs in a `v1.ResourceList`. -/
def NVIDIAGPUResourceName : String := "nvidia.com/gpu"

/-- Modelled from the spec: the Fractional GPU Detector (section 4.2), which
node_info.go calls as `util.GetSharedGPUsIndexUsedInPods`. Every pod carrying the
fractional marker adds its share to the bucket of its GPU index. -/
def specSharedGPUs (pods : List Pod) : FloatMap :=
  pods.foldl
    (fun m pod =>
      match pod.SharedGpu with
      | some (gpuIndex, share) => m.insert gpuIndex (m.at gpuIndex + share)
      | none => m)
    ∅

/-- Modelled from the spec: component-wise addition of resource vectors
(section 3, ResourceQuantity). -/
def ResourceList.add (a b : ResourceList) : ResourceList :=
  { CPUs := a.CPUs + b.CPUs
    Memory := a.Memory + b.Memory
    GPUs := a.GPUs + b.GPUs
    GPUMemory := a.GPUMemory + b.GPUMemory }

/-- Modelled from the spec: the node-reported (or container-declared)
quantities of a `v1.ResourceList` as a resource vector, the part read by
`helpers.AddKubeResourceListToResourceList`. A missing entry counts as zero. -/
def specKubeResources (krl : KubeResourceList) : ResourceList :=
  { CPUs := kubeQuantity krl "cpu"
    Memory := kubeQuantity krl "memory"
    GPUs := kubeQuantity krl NVIDIAGPUResourceName
    GPUMemory := 0 }

/-- Modelled from the spec: the PodResourceStatus rollup (section 3), called as
`helpers.GetPodResourceStatus`. Allocated is Requested plus, for GPUs, the
fractional share the pod is bound to. -/
def specPodResourceStatus (pod : Pod) : PodResourcesStatus :=
  let requested := specKubeResources pod.Spec.Requests
  let share : ℚ :=
    match pod.SharedGpu with
    | some (_, s) => s
    | none => 0
  { Requested := requested
    Allocated := { requested with GPUs := requested.GPUs + share }
    Limited := specKubeResources pod.Spec.Limits }

/-- Modelled from the spec: the single-value extraction of step 5 of section
4.3, called as `prom.SetFloatFromFirstMetric`. The first result of the named
query is written; a query name missing from the data is an extraction error
that leaves the target as it was. -/
def specSetFloatFromFirstMetric (num : ℚ) (data : MetricResultsByQueryName) (name : String) :
    ℚ × Option Error :=
  match data.lookup name with
  | none => (num, some name)
  | some [] => (num, none)
  | some (r :: _) => (r.Value, none)

/-- Modelled from the spec: one step of the Metric Result Grouper (section
4.1). The results of one named query are added to the groups: a result tagged
with the grouping label enters the group of its label value unless that group
has the metric already (the first result wins). -/
def specGroupOne (label name : String) (results : List MetricResult) (groups : GroupedMetrics) :
    GroupedMetrics :=
  results.foldl
    (fun g r =>
      match r.Labels.lookup label with
      | none => g
      | some key =>
        let group : FloatMap := (g.lookup key).getD ∅
        match group.lookup name with
        | some _ => g
        | none => g.insert key (group.insert name r.Value))
    groups

/-- Modelled from the spec: the Metric Result Grouper (section 4.1), called as
`prom.GroupMetrics`. It fails only when a requested query name is not in the
data. -/
def specGroupMetrics (label : String) (data : MetricResultsByQueryName) :
    List String → Except Error GroupedMetrics
  | [] => Except.ok ∅
  | name :: names =>
    match data.lookup name with
    | none => Except.error name
    | some results =>
      match specGroupMetrics label data names with
      | Except.error err => Except.error err
      | Except.ok groups => Except.ok (specGroupOne label name results groups)

/-- Modelled from the spec: the imported functions as the spec describes them.
The spec does not say how `util.AllocatableGpuInNodeIncludingFractions` obtains
its count, so the instance takes that function as its argument. -/
def specHelpers (allocatableGpus : Node → ℚ) : Helpers :=
  { IsNodeReady := fun node => node.Status.Ready
    AllocatableGpuInNodeIncludingFractions := allocatableGpus
    GetSharedGPUsIndexUsedInPods := specSharedGPUs
    GetPodResourceStatus := specPodResourceStatus
    AddToPodResourcesStatus := fun acc s =>
      { Requested := acc.Requested.add s.Requested
        Allocated := acc.Allocated.add s.Allocated
        Limited := acc.Limited.add s.Limited }
    AddKubeResourceListToResourceList := fun rl krl => rl.add (specKubeResources krl)
    MemoryUsageAndUtilization := fun usage memory =>
      ("", if memory = 0 then 0 else usage / memory * 100)
    SetFloatFromFirstMetric := specSetFloatFromFirstMetric
    GroupMetrics := specGroupMetrics }

/-! ## The scenario of the spec: node n1 with two GPUs and two pods sharing GPU 0 -/

/-- Node `n1`, Ready, reporting two GPUs as capacity and as allocatable. -/
def n1 : Node :=
  { Name := "n1"
    Status := { Capacity := [(NVIDIAGPUResourceName, 2)]
                Allocatable := [(NVIDIAGPUResourceName, 2)]
                Ready := true } }

/-- A running pod on `n1` bound to physical GPU 0 with share 0.5. -/
def podA : Pod :=
  { Name := "a"
    Spec := { NodeName := "n1" }
    Status := { Phase := PodPhase.PodRunning }
    SharedGpu := some ("0", 1 / 2) }

/-- A running pod on `n1` bound to physical GPU 0 with share 0.3. -/
def podB : Pod :=
  { Name := "b"
    Spec := { NodeName := "n1" }
    Status := { Phase := PodPhase.PodRunning }
    SharedGpu := some ("0", 3 / 10) }

/-- A running pod on `n1` with a limit of one whole GPU and no fractional marker. -/
def podC : Pod :=
  { Name := "c"
    Spec := { NodeName := "n1"
              Requests := [(NVIDIAGPUResourceName, 1)]
              Limits := [(NVIDIAGPUResourceName, 1)] }
    Status := { Phase := PodPhase.PodRunning } }

/-- The scenario's `NodeInfo`: `n1` with both pods and no metrics. -/
def scenarioInfo : NodeInfo :=
  { Node := n1, Pods := [podA, podB], PrometheusData := none }

/-- The helpers of the scenario: `totalGpus` is 2. -/
def scenarioHelpers : Helpers := specHelpers (fun _ => 2)

/-- Metrics holding a single query, `usedCpus`, with one result of value 37;
every other extraction finds its query name missing. -/
def cpuOnlyData : MetricResultsByQueryName :=
  [(UsedCpusPQ, [{ Labels := [("node", "n1")], Value := 37 }])]

/-- Node `n1` reported as not Ready. -/
def n1Down : Node :=
  { n1 with Status := { n1.Status with Ready := false } }

/-- Node `n1` with no pods and no metrics. -/
def idleInfo : NodeInfo :=
  { Node := n1, Pods := [], PrometheusData := none }

/-- Helpers for which `AllocatableGpuInNodeIncludingFractions` reports four GPUs. -/
def fourGpuHelpers : Helpers := specHelpers (fun _ => 4)

/-- The scenario with the shared GPU missing from the node's report: `n1`
reports one GPU while `totalGpus` is 2; the reported GPU is held by `podC`. -/
def undercountInfo : NodeInfo :=
  { Node := { n1 with Status := { Capacity := [(NVIDIAGPUResourceName, 1)]
                                  Allocatable := [(NVIDIAGPUResourceName, 1)]
                                  Ready := true } }
    Pods := [podA, podB, podC]
    PrometheusData := none }

/-- A running pod bound to another node, `n2`. -/
def podElsewhere : Pod :=
  { Name := "d"
    Spec := { NodeName := "n2" }
    Status := { Phase := PodPhase.PodRunning } }

/-- A pod bound to `n1` that has finished. -/
def podDone : Pod :=
  { Name := "e"
    Spec := { NodeName := "n1" }
    Status := { Phase := PodPhase.PodSucceeded } }

/-- A pending pod bound to `n1`. -/
def podPending : Pod :=
  { Name := "f"
    Spec := { NodeName := "n1" }
    Status := { Phase := PodPhase.PodPending } }

/-- Node `n2`, Ready, reporting one GPU. -/
def n2 : Node :=
  { Name := "n2"
    Status := { Capacity := [(NVIDIAGPUResourceName, 1)]
                Allocatable := [(NVIDIAGPUResourceName, 1)]
                Ready := true } }

/-- Per-GPU metrics of a node with two devices: device 0 and device 1 are both
reported as used by a pod (100 percent); the other per-GPU queries are present
with no result. -/
def gpuData : MetricResultsByQueryName :=
  [ (GpuIdleTimePQ, []),
    (UsedGpuPQ, []),
    (UsedGpuMemoryPQ, []),
    (TotalGpuMemoryPQ, []),
    (GpuUsedByPod, [ { Labels := [("gpu", "0")], Value := 100 },
                     { Labels := [("gpu", "1")], Value := 100 } ]) ]

/-- Per-GPU metrics that know device 1 only. -/
def gpuOneData : MetricResultsByQueryName :=
  [ (GpuIdleTimePQ, []),
    (UsedGpuPQ, []),
    (UsedGpuMemoryPQ, []),
    (TotalGpuMemoryPQ, []),
    (GpuUsedByPod, [ { Labels := [("gpu", "1")], Value := 100 } ]) ]

/-- Per-GPU metrics of device 1 in which the idle time is reported, as zero. -/
def gpuOneIdleZeroData : MetricResultsByQueryName :=
  [ (GpuIdleTimePQ, [ { Labels := [("gpu", "1")], Value := 0 } ]),
    (UsedGpuPQ, []),
    (UsedGpuMemoryPQ, []),
    (TotalGpuMemoryPQ, []),
    (GpuUsedByPod, [ { Labels := [("gpu", "1")], Value := 100 } ]) ]

/-- The five query names `setGpusFromPromDataAndPods` hands to `GroupMetrics`. -/
def gpuQueryNames : List String :=
  [GpuIdleTimePQ, UsedGpuPQ, UsedGpuMemoryPQ, TotalGpuMemoryPQ, GpuUsedByPod]

/-- A cluster of `n1` and `n2` whose metrics backend cannot be reached. -/
def noMetricsCluster : Cluster :=
  { AcquireAllActivePods := Except.ok [podA, podElsewhere, podB, podDone, podPending]
    ListNodes := Except.ok [n1, n2]
    BuildPrometheusClient := Except.error "no prometheus service"
    GroupMultiQueriesToItems := fun _ _ _ => (none, some "unreachable") }

/-- A cluster whose pod listing fails. -/
def noPodsCluster : Cluster :=
  { noMetricsCluster with AcquireAllActivePods := Except.error "pods: forbidden" }

/-- A cluster whose node listing fails. -/
def noNodesCluster : Cluster :=
  { noMetricsCluster with ListNodes := Except.error "nodes: forbidden" }

/-- A cluster whose metrics client is built but whose grouped queries fail. -/
def queryFailsCluster : Cluster :=
  { noMetricsCluster with BuildPrometheusClient := Except.ok { Address := "prometheus:9090" } }

/-- A running pod on `n1` whose GPU limit is -1. -/
def podNegative : Pod :=
  { Name := "g"
    Spec := { NodeName := "n1", Limits := [(NVIDIAGPUResourceName, -1)] }
    Status := { Phase := PodPhase.PodRunning } }

/-- A running pod on `n1` whose GPU limit is ten to the nineteenth, above the
greatest 64-bit `int`. -/
def podHuge : Pod :=
  { Name := "h"
    Spec := { NodeName := "n1", Limits := [(NVIDIAGPUResourceName, 10000000000000000000)] }
    Status := { Phase := PodPhase.PodRunning } }

/-- Node `n1` reporting one GPU, `totalGpus` 2, one shared index, and a pod
with GPU limit -1. -/
def negativeLimitInfo : NodeInfo :=
  { undercountInfo with Pods := [podA, podB, podNegative] }

/-- Node `n1` reporting one GPU, `totalGpus` 2, one shared index, and a pod
with GPU limit ten to the nineteenth. -/
def hugeLimitInfo : NodeInfo :=
  { undercountInfo with Pods := [podA, podB, podHuge] }

/-! ## Lemmas on the conversions -/

theorem goInt_intCast (n : Int) : goInt (n : ℚ) = n := by
  simp [goInt]

theorem goInt_nonneg {x : ℚ} (hx : 0 ≤ x) : 0 ≤ goInt x := by
  unfold goInt
  exact Int.tdiv_nonneg (Rat.num_nonneg.mpr hx) (Int.ofNat_nonneg _)

/-- A rational lies strictly below its truncation plus one. -/
theorem lt_goInt_add_one (x : ℚ) : x < (goInt x : ℚ) + 1 := by
  have hden : (0 : Int) < (x.den : Int) := by exact_mod_cast x.den_pos
  have h := Int.lt_tdiv_add_one_mul_self x.num hden
  have hq : (x.num : ℚ) < ((x.num.tdiv (x.den : Int) : Int) + 1 : ℚ) * (x.den : ℚ) := by
    exact_mod_cast h
  have hdq : (0 : ℚ) < (x.den : ℚ) := by exact_mod_cast x.den_pos
  have hx : x * (x.den : ℚ) = (x.num : ℚ) := Rat.mul_den_eq_num x
  unfold goInt
  have hlt : x * (x.den : ℚ) < ((x.num.tdiv (x.den : Int) : Int) + 1 : ℚ) * (x.den : ℚ) := by
    rw [hx]
    exact hq
  exact lt_of_mul_lt_mul_right hlt (le_of_lt hdq)

/-- An integer strictly above the truncation of a value is not below the value. -/
theorem le_of_goInt_lt {x : ℚ} {n : Int} (h : goInt x < n) : x ≤ (n : ℚ) := by
  have h1 : goInt x + 1 ≤ n := h
  have h2 : ((goInt x : ℚ) + 1) ≤ (n : ℚ) := by exact_mod_cast h1
  exact le_trans (le_of_lt (lt_goInt_add_one x)) h2

/-! ## Lemmas on the cluster part of `GetResourcesStatus` -/

theorem kube_NumberOfFractionalAllocatedGpu (H : Helpers) (ni : NodeInfo) :
    (kubeResourcesStatus H ni).NumberOfFractionalAllocatedGpu
      = if isFractionRunningOnNode H ni then (sharedGpuCount H ni : Int) else 0 := by
  unfold kubeResourcesStatus isFractionRunningOnNode rawCapacity sharedGpuCount
  by_cases h : totalGpus H ni >
      goInt (H.AddKubeResourceListToResourceList {} ni.Node.Status.Capacity).GPUs
  · simp [h]
  · simp [h]

theorem kube_Capacity (H : Helpers) (ni : NodeInfo) :
    (kubeResourcesStatus H ni).Capacity
      = if isFractionRunningOnNode H ni then
          { rawCapacity H ni with GPUs := (totalGpus H ni : ℚ) }
        else rawCapacity H ni := by
  unfold kubeResourcesStatus isFractionRunningOnNode rawCapacity
  by_cases h : totalGpus H ni >
      goInt (H.AddKubeResourceListToResourceList {} ni.Node.Status.Capacity).GPUs
  · simp [h]
  · simp [h]

theorem kube_Allocatable (H : Helpers) (ni : NodeInfo) :
    (kubeResourcesStatus H ni).Allocatable
      = if isFractionRunningOnNode H ni then
          H.AddKubeResourceListToResourceList
            { GPUs := 0 + ((sharedGpuCount H ni : Int) : ℚ) } ni.Node.Status.Allocatable
        else rawAllocatable H ni := by
  unfold kubeResourcesStatus isFractionRunningOnNode rawCapacity rawAllocatable sharedGpuCount
  by_cases h : totalGpus H ni >
      goInt (H.AddKubeResourceListToResourceList {} ni.Node.Status.Capacity).GPUs
  · simp [h]
  · simp [h]

theorem kube_GPUsInUse (H : Helpers) (ni : NodeInfo) :
    (kubeResourcesStatus H ni).GPUsInUse
      = wrapInt64 ((kubeResourcesStatus H ni).NumberOfFractionalAllocatedGpu
        + goInt64 (kubeResourcesStatus H ni).Limited.GPUs) := by
  unfold kubeResourcesStatus
  by_cases h : totalGpus H ni >
      goInt (H.AddKubeResourceListToResourceList {} ni.Node.Status.Capacity).GPUs
  · simp [h]
  · simp [h]

theorem kube_Limited (H : Helpers) (ni : NodeInfo) :
    (kubeResourcesStatus H ni).Limited = (podResStatus H ni.Pods).Limited := by
  unfold kubeResourcesStatus
  by_cases h : totalGpus H ni >
      goInt (H.AddKubeResourceListToResourceList {} ni.Node.Status.Capacity).GPUs
  · simp [h]
  · simp [h]

theorem kube_Usage (H : Helpers) (ni : NodeInfo) :
    (kubeResourcesStatus H ni).Usage = {} := by
  unfold kubeResourcesStatus
  by_cases h : totalGpus H ni >
      goInt (H.AddKubeResourceListToResourceList {} ni.Node.Status.Capacity).GPUs
  · simp [h]
  · simp [h]

theorem kube_NodeGPUs (H : Helpers) (ni : NodeInfo) :
    (kubeResourcesStatus H ni).NodeGPUs = [] := by
  unfold kubeResourcesStatus
  by_cases h : totalGpus H ni >
      goInt (H.AddKubeResourceListToResourceList {} ni.Node.Status.Capacity).GPUs
  · simp [h]
  · simp [h]

/-- The cluster part of the status does not read `PrometheusData`. -/
theorem kube_congr (H : Helpers) (node : Node) (pods : List Pod)
    (d1 d2 : Option MetricResultsByQueryName) :
    kubeResourcesStatus H { Node := node, Pods := pods, PrometheusData := d1 }
      = kubeResourcesStatus H { Node := node, Pods := pods, PrometheusData := d2 } := by
  rfl

/-- What the status keeps of the cluster part whatever `PrometheusData` holds. -/
theorem status_frame (H : Helpers) (ni : NodeInfo) :
    (GetResourcesStatus H ni).Requested = (kubeResourcesStatus H ni).Requested ∧
    (GetResourcesStatus H ni).Allocated = (kubeResourcesStatus H ni).Allocated ∧
    (GetResourcesStatus H ni).Limited = (kubeResourcesStatus H ni).Limited ∧
    (GetResourcesStatus H ni).Capacity.CPUs = (kubeResourcesStatus H ni).Capacity.CPUs ∧
    (GetResourcesStatus H ni).Capacity.Memory = (kubeResourcesStatus H ni).Capacity.Memory ∧
    (GetResourcesStatus H ni).Capacity.GPUs = (kubeResourcesStatus H ni).Capacity.GPUs ∧
    (GetResourcesStatus H ni).Allocatable = (kubeResourcesStatus H ni).Allocatable ∧
    (GetResourcesStatus H ni).NumberOfFractionalAllocatedGpu
      = (kubeResourcesStatus H ni).NumberOfFractionalAllocatedGpu ∧
    (GetResourcesStatus H ni).GPUsInUse = (kubeResourcesStatus H ni).GPUsInUse := by
  unfold GetResourcesStatus GetResourcesStatusAndLog
  cases ni.PrometheusData with
  | none => simp
  | some data => simp [extractPrometheusData]

/-- The helpers of the spec add the node-reported GPU quantity onto the vector. -/
theorem specHelpers_add_GPUs (f : Node → ℚ) (rl : ResourceList) (krl : KubeResourceList) :
    ((specHelpers f).AddKubeResourceListToResourceList rl krl).GPUs
      = rl.GPUs + ((specHelpers f).AddKubeResourceListToResourceList {} krl).GPUs := by
  simp [specHelpers, ResourceList.add]

/-! ## The scenarios evaluated -/

theorem scenario_rawCapacity : (rawCapacity scenarioHelpers scenarioInfo).GPUs = 2 := by
  simp [rawCapacity, scenarioHelpers, specHelpers, scenarioInfo, n1, specKubeResources,
    kubeQuantity, ResourceList.add, NVIDIAGPUResourceName]

theorem scenario_rawAllocatable : (rawAllocatable scenarioHelpers scenarioInfo).GPUs = 2 := by
  simp [rawAllocatable, scenarioHelpers, specHelpers, scenarioInfo, n1, specKubeResources,
    kubeQuantity, ResourceList.add, NVIDIAGPUResourceName]

theorem scenario_totalGpus (ni : NodeInfo) : totalGpus scenarioHelpers ni = 2 := by
  simp [totalGpus, scenarioHelpers, specHelpers, goInt]

theorem scenario_sharedGpuCount : sharedGpuCount scenarioHelpers scenarioInfo = 1 := by
  simp [sharedGpuCount, scenarioHelpers, specHelpers, specSharedGPUs, scenarioInfo, podA, podB,
    FloatMap.at]

theorem scenario_not_fraction : ¬ isFractionRunningOnNode scenarioHelpers scenarioInfo := by
  simp [isFractionRunningOnNode, scenario_rawCapacity, scenario_totalGpus, goInt]

theorem undercount_rawCapacity : (rawCapacity scenarioHelpers undercountInfo).GPUs = 1 := by
  simp [rawCapacity, scenarioHelpers, specHelpers, undercountInfo, specKubeResources,
    kubeQuantity, ResourceList.add, NVIDIAGPUResourceName]

theorem undercount_rawAllocatable : (rawAllocatable scenarioHelpers undercountInfo).GPUs = 1 := by
  simp [rawAllocatable, scenarioHelpers, specHelpers, undercountInfo, specKubeResources,
    kubeQuantity, ResourceList.add, NVIDIAGPUResourceName]

theorem undercount_sharedGpuCount : sharedGpuCount scenarioHelpers undercountInfo = 1 := by
  simp [sharedGpuCount, scenarioHelpers, specHelpers, specSharedGPUs, undercountInfo, podA, podB,
    podC, FloatMap.at]

theorem undercount_fraction : isFractionRunningOnNode scenarioHelpers undercountInfo := by
  simp [isFractionRunningOnNode, undercount_rawCapacity, scenario_totalGpus, goInt]

theorem idle_rawCapacity (H : Node → ℚ) : (rawCapacity (specHelpers H) idleInfo).GPUs = 2 := by
  simp [rawCapacity, specHelpers, idleInfo, n1, specKubeResources, kubeQuantity,
    ResourceList.add, NVIDIAGPUResourceName]

theorem idle_totalGpus : totalGpus fourGpuHelpers idleInfo = 4 := by
  simp [totalGpus, fourGpuHelpers, specHelpers, goInt]

theorem idle_fraction : isFractionRunningOnNode fourGpuHelpers idleInfo := by
  have hraw : (rawCapacity fourGpuHelpers idleInfo).GPUs = 2 := idle_rawCapacity (fun _ => 4)
  unfold isFractionRunningOnNode
  rw [idle_totalGpus, hraw]
  simp [goInt]

/-! ## C1: pods of a node that is not Ready -/

/-- C1: for every node and every list of active pods, when `IsNodeReady` is
false `getPodsOnSpecificNode` returns the empty list, whatever the pods' node
names and phases are. -/
theorem getPodsOnSpecificNode_not_ready (H : Helpers) (node : Node) (allActivePods : List Pod)
    (h : H.IsNodeReady node = false) :
    getPodsOnSpecificNode H node allActivePods = [] := by
  simp [getPodsOnSpecificNode, h]

/-- C1 at node `n1` reported not Ready, with two running pods bound to it. -/
theorem getPodsOnSpecificNode_not_ready_witness :
    scenarioHelpers.IsNodeReady n1Down = false ∧
    podA.Spec.NodeName = n1Down.Name ∧ podA.Status.Phase = PodPhase.PodRunning ∧
    getPodsOnSpecificNode scenarioHelpers n1Down [podA, podB] = [] :=
  ⟨rfl, rfl, rfl, getPodsOnSpecificNode_not_ready scenarioHelpers n1Down [podA, podB] rfl⟩

/-! ## C2: the fractional GPU count -/

/-- C2 fails in the scenario of the spec: `n1` reports two GPUs, `totalGpus` is
2, two pods share GPU index 0, so one index is shared, yet
`NumberOfFractionalAllocatedGpu` is 0. -/
theorem fractional_count_scenario :
    (rawCapacity scenarioHelpers scenarioInfo).GPUs = 2 ∧
    totalGpus scenarioHelpers scenarioInfo = 2 ∧
    sharedGpuCount scenarioHelpers scenarioInfo = 1 ∧
    (GetResourcesStatus scenarioHelpers scenarioInfo).NumberOfFractionalAllocatedGpu = 0 ∧
    (GetResourcesStatus scenarioHelpers scenarioInfo).NumberOfFractionalAllocatedGpu
      ≠ (sharedGpuCount scenarioHelpers scenarioInfo : Int) := by
  have hzero :
      (GetResourcesStatus scenarioHelpers scenarioInfo).NumberOfFractionalAllocatedGpu = 0 := by
    rw [(status_frame scenarioHelpers scenarioInfo).2.2.2.2.2.2.2.1,
      kube_NumberOfFractionalAllocatedGpu, if_neg scenario_not_fraction]
  refine ⟨scenario_rawCapacity, scenario_totalGpus scenarioInfo, scenario_sharedGpuCount,
    hzero, ?_⟩
  rw [hzero, scenario_sharedGpuCount]
  decide

/-- C2 as the code has it: `NumberOfFractionalAllocatedGpu` is the number of
distinct shared GPU indices when `totalGpus` exceeds the integer part of the raw
reported GPU capacity, and 0 otherwise. -/
theorem fractional_count_guarded (H : Helpers) (ni : NodeInfo) :
    (GetResourcesStatus H ni).NumberOfFractionalAllocatedGpu
      = if isFractionRunningOnNode H ni then (sharedGpuCount H ni : Int) else 0 := by
  rw [(status_frame H ni).2.2.2.2.2.2.2.1, kube_NumberOfFractionalAllocatedGpu]

/-! ## C3 to C6: GPU capacity and allocatable -/

/-- C3: provided `AddKubeResourceListToResourceList` adds the reported GPU
quantity onto the vector it is given, when `totalGpus` exceeds the integer part
of the raw reported GPU capacity the status has `Capacity.GPUs = totalGpus` and
`Allocatable.GPUs` equal to the raw reported allocatable GPUs plus the number of
distinct shared indices; otherwise both are the raw reported values. -/
theorem capacity_allocatable_override (H : Helpers) (ni : NodeInfo)
    (hadd : ∀ rl krl, (H.AddKubeResourceListToResourceList rl krl).GPUs
      = rl.GPUs + (H.AddKubeResourceListToResourceList {} krl).GPUs) :
    (GetResourcesStatus H ni).Capacity.GPUs
      = (if isFractionRunningOnNode H ni then (totalGpus H ni : ℚ)
          else (rawCapacity H ni).GPUs) ∧
    (GetResourcesStatus H ni).Allocatable.GPUs
      = (if isFractionRunningOnNode H ni then
            (rawAllocatable H ni).GPUs + (sharedGpuCount H ni : ℚ)
          else (rawAllocatable H ni).GPUs) := by
  have hf := status_frame H ni
  rw [hf.2.2.2.2.2.1, hf.2.2.2.2.2.2.1, kube_Capacity, kube_Allocatable]
  by_cases h : isFractionRunningOnNode H ni
  · simp only [if_pos h, true_and]
    rw [hadd]
    simp [rawAllocatable, add_comm]
  · simp only [if_neg h, and_self]

/-- C3 where the shared GPU is missing from the node's report: `n1` reports one
GPU, `totalGpus` is 2 and one index is shared, so capacity becomes 2 and
allocatable 1 + 1. -/
theorem capacity_allocatable_override_witness :
    (rawCapacity scenarioHelpers undercountInfo).GPUs = 1 ∧
    (rawAllocatable scenarioHelpers undercountInfo).GPUs = 1 ∧
    totalGpus scenarioHelpers undercountInfo = 2 ∧
    sharedGpuCount scenarioHelpers undercountInfo = 1 ∧
    (GetResourcesStatus scenarioHelpers undercountInfo).Capacity.GPUs = 2 ∧
    (GetResourcesStatus scenarioHelpers undercountInfo).Allocatable.GPUs = 1 + 1 := by
  have h := capacity_allocatable_override scenarioHelpers undercountInfo
    (specHelpers_add_GPUs (fun _ => 2))
  rw [if_pos undercount_fraction, if_pos undercount_fraction, scenario_totalGpus,
    undercount_rawAllocatable, undercount_sharedGpuCount] at h
  refine ⟨undercount_rawCapacity, undercount_rawAllocatable, scenario_totalGpus undercountInfo,
    undercount_sharedGpuCount, ?_, ?_⟩
  · rw [h.1]
    norm_num
  · rw [h.2]
    norm_num

/-- C4 fails for a node without any pod: `n1` reports two GPUs, no pod shares a
GPU index, `AllocatableGpuInNodeIncludingFractions` is 4, and the status has
`Capacity.GPUs = 4`, not the raw reported 2. -/
theorem capacity_overridden_without_sharing :
    (fourGpuHelpers.GetSharedGPUsIndexUsedInPods idleInfo.Pods).entries = [] ∧
    (rawCapacity fourGpuHelpers idleInfo).GPUs = 2 ∧
    (GetResourcesStatus fourGpuHelpers idleInfo).Capacity.GPUs = 4 ∧
    (GetResourcesStatus fourGpuHelpers idleInfo).Capacity.GPUs
      ≠ (rawCapacity fourGpuHelpers idleInfo).GPUs := by
  have hraw : (rawCapacity fourGpuHelpers idleInfo).GPUs = 2 := idle_rawCapacity (fun _ => 4)
  have hcap : (GetResourcesStatus fourGpuHelpers idleInfo).Capacity.GPUs = 4 := by
    rw [(status_frame fourGpuHelpers idleInfo).2.2.2.2.2.1, kube_Capacity, if_pos idle_fraction,
      idle_totalGpus]
    norm_num
  refine ⟨rfl, hraw, hcap, ?_⟩
  rw [hcap, hraw]
  norm_num

/-- C4 as the code has it: for a node whose pods share no GPU index,
`Capacity.GPUs` is the raw reported capacity when `totalGpus` does not exceed
its integer part and `totalGpus` when it does, and the fractional count is 0
either way. -/
theorem capacity_without_sharing (H : Helpers) (ni : NodeInfo)
    (hempty : (H.GetSharedGPUsIndexUsedInPods ni.Pods).entries = []) :
    (GetResourcesStatus H ni).Capacity.GPUs
      = (if isFractionRunningOnNode H ni then (totalGpus H ni : ℚ)
          else (rawCapacity H ni).GPUs) ∧
    (GetResourcesStatus H ni).NumberOfFractionalAllocatedGpu = 0 := by
  have hf := status_frame H ni
  rw [hf.2.2.2.2.2.1, hf.2.2.2.2.2.2.2.1, kube_Capacity, kube_NumberOfFractionalAllocatedGpu]
  have hcount : sharedGpuCount H ni = 0 := by simp [sharedGpuCount, hempty]
  by_cases h : isFractionRunningOnNode H ni
  · simp [if_pos h, hcount]
  · simp [if_neg h]

/-- C4 as amended, at `n1` without pods: with `totalGpus` 2 the capacity stays
at the reported 2. -/
theorem capacity_without_sharing_witness :
    (scenarioHelpers.GetSharedGPUsIndexUsedInPods idleInfo.Pods).entries = [] ∧
    totalGpus scenarioHelpers idleInfo = 2 ∧
    (rawCapacity scenarioHelpers idleInfo).GPUs = 2 ∧
    (GetResourcesStatus scenarioHelpers idleInfo).Capacity.GPUs = 2 ∧
    (GetResourcesStatus scenarioHelpers idleInfo).NumberOfFractionalAllocatedGpu = 0 := by
  have hraw : (rawCapacity scenarioHelpers idleInfo).GPUs = 2 := idle_rawCapacity (fun _ => 2)
  have hnot : ¬ isFractionRunningOnNode scenarioHelpers idleInfo := by
    unfold isFractionRunningOnNode
    rw [scenario_totalGpus, hraw]
    simp [goInt]
  have h := capacity_without_sharing scenarioHelpers idleInfo rfl
  rw [if_neg hnot, hraw] at h
  exact ⟨rfl, scenario_totalGpus idleInfo, hraw, h.1, h.2⟩

/-- C5 fails in the scenario of the spec: two pods share GPU index 0 on `n1`,
`totalGpus` is 2 and does not exceed the reported capacity 2, and
`Allocatable.GPUs` stays at the raw reported 2 instead of 2 + 1. -/
theorem allocatable_not_increased_scenario :
    sharedGpuCount scenarioHelpers scenarioInfo = 1 ∧
    (rawAllocatable scenarioHelpers scenarioInfo).GPUs = 2 ∧
    (GetResourcesStatus scenarioHelpers scenarioInfo).Allocatable.GPUs = 2 ∧
    (GetResourcesStatus scenarioHelpers scenarioInfo).Allocatable.GPUs
      ≠ (rawAllocatable scenarioHelpers scenarioInfo).GPUs
          + (sharedGpuCount scenarioHelpers scenarioInfo : ℚ) := by
  have halloc : (GetResourcesStatus scenarioHelpers scenarioInfo).Allocatable.GPUs = 2 := by
    rw [(status_frame scenarioHelpers scenarioInfo).2.2.2.2.2.2.1, kube_Allocatable,
      if_neg scenario_not_fraction, scenario_rawAllocatable]
  refine ⟨scenario_sharedGpuCount, scenario_rawAllocatable, halloc, ?_⟩
  rw [halloc, scenario_rawAllocatable, scenario_sharedGpuCount]
  norm_num

/-- C5 as the code has it: for a node whose pods share at least one GPU index,
provided `AddKubeResourceListToResourceList` adds the reported GPU quantity onto
the vector it is given, `Allocatable.GPUs` is the raw reported allocatable plus
the number of distinct shared indices when `totalGpus` exceeds the integer part
of the raw reported capacity, and the raw reported allocatable when it does not;
so it lies above the raw value exactly in the first case. -/
theorem allocatable_with_sharing (H : Helpers) (ni : NodeInfo)
    (hshare : (H.GetSharedGPUsIndexUsedInPods ni.Pods).entries ≠ [])
    (hadd : ∀ rl krl, (H.AddKubeResourceListToResourceList rl krl).GPUs
      = rl.GPUs + (H.AddKubeResourceListToResourceList {} krl).GPUs) :
    (GetResourcesStatus H ni).Allocatable.GPUs
      = (if isFractionRunningOnNode H ni then
            (rawAllocatable H ni).GPUs + (sharedGpuCount H ni : ℚ)
          else (rawAllocatable H ni).GPUs) ∧
    ((rawAllocatable H ni).GPUs < (GetResourcesStatus H ni).Allocatable.GPUs
      ↔ isFractionRunningOnNode H ni) := by
  have hpos : 0 < sharedGpuCount H ni := by
    unfold sharedGpuCount
    exact List.length_pos.mpr hshare
  have hposq : (0 : ℚ) < (sharedGpuCount H ni : ℚ) := by exact_mod_cast hpos
  have hval : (GetResourcesStatus H ni).Allocatable.GPUs
      = (if isFractionRunningOnNode H ni then
            (rawAllocatable H ni).GPUs + (sharedGpuCount H ni : ℚ)
          else (rawAllocatable H ni).GPUs) := by
    rw [(status_frame H ni).2.2.2.2.2.2.1, kube_Allocatable]
    by_cases h : isFractionRunningOnNode H ni
    · simp only [if_pos h]
      rw [hadd]
      simp [rawAllocatable, add_comm]
    · simp only [if_neg h]
  refine ⟨hval, ?_⟩
  rw [hval]
  by_cases h : isFractionRunningOnNode H ni
  · simp [if_pos h, hposq, h]
  · simp [if_neg h, h]

/-- C5 as amended, where the shared GPU is missing from the node's report:
`n1` reports one GPU, `totalGpus` is 2, one index is shared, and allocatable
rises from 1 to 1 + 1. -/
theorem allocatable_with_sharing_witness :
    (scenarioHelpers.GetSharedGPUsIndexUsedInPods undercountInfo.Pods).entries ≠ [] ∧
    isFractionRunningOnNode scenarioHelpers undercountInfo ∧
    (rawAllocatable scenarioHelpers undercountInfo).GPUs = 1 ∧
    (GetResourcesStatus scenarioHelpers undercountInfo).Allocatable.GPUs = 1 + 1 ∧
    (rawAllocatable scenarioHelpers undercountInfo).GPUs
      < (GetResourcesStatus scenarioHelpers undercountInfo).Allocatable.GPUs := by
  have hshare :
      (scenarioHelpers.GetSharedGPUsIndexUsedInPods undercountInfo.Pods).entries ≠ [] := by
    have hc := undercount_sharedGpuCount
    unfold sharedGpuCount at hc
    intro hnil
    rw [hnil] at hc
    exact absurd hc (by decide)
  have h := allocatable_with_sharing scenarioHelpers undercountInfo hshare
    (specHelpers_add_GPUs (fun _ => 2))
  have hval := h.1
  rw [if_pos undercount_fraction, undercount_rawAllocatable, undercount_sharedGpuCount] at hval
  refine ⟨hshare, undercount_fraction, undercount_rawAllocatable, ?_, h.2.mpr undercount_fraction⟩
  rw [hval]
  norm_num

/-- C6: for every NodeInfo the status has `Capacity.GPUs` at least the raw
reported GPU capacity; the override to `totalGpus` happens only when `totalGpus`
exceeds the truncation of the raw value. -/
theorem capacity_ge_raw (H : Helpers) (ni : NodeInfo) :
    (rawCapacity H ni).GPUs ≤ (GetResourcesStatus H ni).Capacity.GPUs := by
  rw [(status_frame H ni).2.2.2.2.2.1, kube_Capacity]
  by_cases h : isFractionRunningOnNode H ni
  · simp only [if_pos h]
    exact le_of_goInt_lt h
  · simp only [if_neg h, le_refl]

/-! ## C7: GPUs in use -/

/-- A value inside the 64-bit range is left alone by the wrap-around. -/
theorem wrapInt64_of_inRange {z : Int} (hlo : -(2 ^ 63) ≤ z) (hhi : z < 2 ^ 63) :
    wrapInt64 z = z := by
  unfold wrapInt64
  rw [Int.emod_eq_of_lt (by omega) (by omega)]
  omega

/-- The 64-bit conversion is the truncation for a value whose truncation fits. -/
theorem goInt64_of_inRange {x : ℚ} (hlo : -(2 ^ 63) ≤ goInt x) (hhi : goInt x < 2 ^ 63) :
    goInt64 x = goInt x := by
  unfold goInt64 minInt64
  rw [if_pos ⟨hlo, hhi⟩]

/-- The fractional count of the status is never negative. -/
theorem fractional_count_nonneg (H : Helpers) (ni : NodeInfo) :
    0 ≤ (GetResourcesStatus H ni).NumberOfFractionalAllocatedGpu := by
  rw [(status_frame H ni).2.2.2.2.2.2.2.1, kube_NumberOfFractionalAllocatedGpu]
  split
  · exact Int.ofNat_nonneg _
  · exact le_refl 0

/-- `GPUsInUse` of the status as line 102 computes it. -/
theorem status_GPUsInUse (H : Helpers) (ni : NodeInfo) :
    (GetResourcesStatus H ni).GPUsInUse
      = wrapInt64 ((GetResourcesStatus H ni).NumberOfFractionalAllocatedGpu
          + goInt64 (GetResourcesStatus H ni).Limited.GPUs) := by
  have hf := status_frame H ni
  rw [hf.2.2.2.2.2.2.2.2, hf.2.2.2.2.2.2.2.1, hf.2.2.1, kube_GPUsInUse]

theorem negativeLimit_Limited :
    (GetResourcesStatus scenarioHelpers negativeLimitInfo).Limited.GPUs = -1 := by
  rw [(status_frame scenarioHelpers negativeLimitInfo).2.2.1, kube_Limited]
  simp [podResStatus, negativeLimitInfo, undercountInfo, scenarioHelpers, specHelpers,
    specPodResourceStatus, specKubeResources, kubeQuantity, ResourceList.add, podA, podB,
    podNegative, NVIDIAGPUResourceName]

theorem hugeLimit_Limited :
    (GetResourcesStatus scenarioHelpers hugeLimitInfo).Limited.GPUs = 10000000000000000000 := by
  rw [(status_frame scenarioHelpers hugeLimitInfo).2.2.1, kube_Limited]
  simp [podResStatus, hugeLimitInfo, undercountInfo, scenarioHelpers, specHelpers,
    specPodResourceStatus, specKubeResources, kubeQuantity, ResourceList.add, podA, podB,
    podHuge, NVIDIAGPUResourceName]

theorem negativeLimit_count :
    (GetResourcesStatus scenarioHelpers negativeLimitInfo).NumberOfFractionalAllocatedGpu = 1 := by
  have hraw : (rawCapacity scenarioHelpers negativeLimitInfo).GPUs = 1 := undercount_rawCapacity
  have hfrac : isFractionRunningOnNode scenarioHelpers negativeLimitInfo := by
    unfold isFractionRunningOnNode
    rw [scenario_totalGpus, hraw]
    simp [goInt]
  have hcount : sharedGpuCount scenarioHelpers negativeLimitInfo = 1 := by
    simp [sharedGpuCount, scenarioHelpers, specHelpers, specSharedGPUs, negativeLimitInfo,
      undercountInfo, podA, podB, podNegative, FloatMap.at]
  rw [(status_frame scenarioHelpers negativeLimitInfo).2.2.2.2.2.2.2.1,
    kube_NumberOfFractionalAllocatedGpu, if_pos hfrac, hcount]
  rfl

theorem hugeLimit_count :
    (GetResourcesStatus scenarioHelpers hugeLimitInfo).NumberOfFractionalAllocatedGpu = 1 := by
  have hraw : (rawCapacity scenarioHelpers hugeLimitInfo).GPUs = 1 := undercount_rawCapacity
  have hfrac : isFractionRunningOnNode scenarioHelpers hugeLimitInfo := by
    unfold isFractionRunningOnNode
    rw [scenario_totalGpus, hraw]
    simp [goInt]
  have hcount : sharedGpuCount scenarioHelpers hugeLimitInfo = 1 := by
    simp [sharedGpuCount, scenarioHelpers, specHelpers, specSharedGPUs, hugeLimitInfo,
      undercountInfo, podA, podB, podHuge, FloatMap.at]
  rw [(status_frame scenarioHelpers hugeLimitInfo).2.2.2.2.2.2.2.1,
    kube_NumberOfFractionalAllocatedGpu, if_pos hfrac, hcount]
  rfl

/-- C7 fails on two nodes with one shared GPU index. With a pod whose GPU limit
is -1 the limits sum to -1 and `GPUsInUse` is 1 + (-1) = 0, below the fractional
count 1. With a pod whose GPU limit is ten to the nineteenth the limits are
non-negative, the conversion leaves the 64-bit range and `GPUsInUse` is
-9223372036854775807, again below the fractional count 1. -/
theorem gpusInUse_below_fractional :
    ((GetResourcesStatus scenarioHelpers negativeLimitInfo).Limited.GPUs = -1 ∧
      (GetResourcesStatus scenarioHelpers negativeLimitInfo).NumberOfFractionalAllocatedGpu = 1 ∧
      (GetResourcesStatus scenarioHelpers negativeLimitInfo).GPUsInUse = 0 ∧
      ¬ ((GetResourcesStatus scenarioHelpers negativeLimitInfo).NumberOfFractionalAllocatedGpu
        ≤ (GetResourcesStatus scenarioHelpers negativeLimitInfo).GPUsInUse)) ∧
    ((GetResourcesStatus scenarioHelpers hugeLimitInfo).Limited.GPUs = 10000000000000000000 ∧
      (GetResourcesStatus scenarioHelpers hugeLimitInfo).NumberOfFractionalAllocatedGpu = 1 ∧
      (GetResourcesStatus scenarioHelpers hugeLimitInfo).GPUsInUse = -9223372036854775807 ∧
      ¬ ((GetResourcesStatus scenarioHelpers hugeLimitInfo).NumberOfFractionalAllocatedGpu
        ≤ (GetResourcesStatus scenarioHelpers hugeLimitInfo).GPUsInUse)) := by
  have hneg : (GetResourcesStatus scenarioHelpers negativeLimitInfo).GPUsInUse = 0 := by
    rw [status_GPUsInUse, negativeLimit_count, negativeLimit_Limited]
    have hconv : goInt64 (-1 : ℚ) = -1 := by
      simp [goInt64, goInt, minInt64]
    rw [hconv]
    decide
  have hhuge : (GetResourcesStatus scenarioHelpers hugeLimitInfo).GPUsInUse
      = -9223372036854775807 := by
    rw [status_GPUsInUse, hugeLimit_count, hugeLimit_Limited]
    have hconv : goInt64 (10000000000000000000 : ℚ) = -9223372036854775808 := by
      simp [goInt64, goInt, minInt64]
    rw [hconv]
    decide
  refine ⟨⟨negativeLimit_Limited, negativeLimit_count, hneg, ?_⟩,
    ⟨hugeLimit_Limited, hugeLimit_count, hhuge, ?_⟩⟩
  · rw [negativeLimit_count, hneg]
    decide
  · rw [hugeLimit_count, hhuge]
    decide

/-- C7 as the code has it: when the summed pod GPU limits (`Limited.GPUs`) are
not negative and `NumberOfFractionalAllocatedGpu` plus their truncation is below
`2 ^ 63`, `GPUsInUse` is `NumberOfFractionalAllocatedGpu` plus the truncation of
the summed limits, and is at least `NumberOfFractionalAllocatedGpu`. -/
theorem gpusInUse_ge_fractional (H : Helpers) (ni : NodeInfo)
    (hlim : 0 ≤ (GetResourcesStatus H ni).Limited.GPUs)
    (hrange : (GetResourcesStatus H ni).NumberOfFractionalAllocatedGpu
      + goInt (GetResourcesStatus H ni).Limited.GPUs < 2 ^ 63) :
    (GetResourcesStatus H ni).GPUsInUse
      = (GetResourcesStatus H ni).NumberOfFractionalAllocatedGpu
        + goInt (GetResourcesStatus H ni).Limited.GPUs ∧
    (GetResourcesStatus H ni).NumberOfFractionalAllocatedGpu
      ≤ (GetResourcesStatus H ni).GPUsInUse := by
  have hcount := fractional_count_nonneg H ni
  have hnonneg := goInt_nonneg hlim
  have hconv : goInt64 (GetResourcesStatus H ni).Limited.GPUs
      = goInt (GetResourcesStatus H ni).Limited.GPUs :=
    goInt64_of_inRange (by omega) (by omega)
  have heq : (GetResourcesStatus H ni).GPUsInUse
      = (GetResourcesStatus H ni).NumberOfFractionalAllocatedGpu
        + goInt (GetResourcesStatus H ni).Limited.GPUs := by
    rw [status_GPUsInUse, hconv]
    exact wrapInt64_of_inRange (by omega) hrange
  refine ⟨heq, ?_⟩
  rw [heq]
  omega

/-- C7 as amended, on `n1` with one shared GPU and one pod limited to a whole
GPU: the limits sum to 1, the fractional count is 1 and `GPUsInUse` is 2. -/
theorem gpusInUse_ge_fractional_witness :
    (GetResourcesStatus scenarioHelpers undercountInfo).Limited.GPUs = 1 ∧
    (GetResourcesStatus scenarioHelpers undercountInfo).NumberOfFractionalAllocatedGpu = 1 ∧
    (GetResourcesStatus scenarioHelpers undercountInfo).GPUsInUse = 2 ∧
    (GetResourcesStatus scenarioHelpers undercountInfo).NumberOfFractionalAllocatedGpu
      ≤ (GetResourcesStatus scenarioHelpers undercountInfo).GPUsInUse := by
  have hlim : (GetResourcesStatus scenarioHelpers undercountInfo).Limited.GPUs = 1 := by
    rw [(status_frame scenarioHelpers undercountInfo).2.2.1, kube_Limited]
    simp [podResStatus, undercountInfo, scenarioHelpers, specHelpers, specPodResourceStatus,
      specKubeResources, kubeQuantity, ResourceList.add, podA, podB, podC, NVIDIAGPUResourceName]
  have hcount :
      (GetResourcesStatus scenarioHelpers undercountInfo).NumberOfFractionalAllocatedGpu = 1 := by
    rw [(status_frame scenarioHelpers undercountInfo).2.2.2.2.2.2.2.1,
      kube_NumberOfFractionalAllocatedGpu, if_pos undercount_fraction, undercount_sharedGpuCount]
    rfl
  have hconv : goInt (GetResourcesStatus scenarioHelpers undercountInfo).Limited.GPUs = 1 := by
    rw [hlim]
    simp [goInt]
  have h := gpusInUse_ge_fractional scenarioHelpers undercountInfo
    (by rw [hlim]; norm_num) (by rw [hcount, hconv]; decide)
  refine ⟨hlim, hcount, ?_, h.2⟩
  rw [h.1, hcount, hconv]
  rfl

/-! ## C8 to C10: the metrics part -/

/-- C8: when `PrometheusData` is nil the status has all four `Usage` fields zero
and an empty `NodeGPUs`. -/
theorem usage_zero_without_metrics (H : Helpers) (node : Node) (pods : List Pod) :
    (GetResourcesStatus H { Node := node, Pods := pods, PrometheusData := none }).Usage.CPUs = 0 ∧
    (GetResourcesStatus H { Node := node, Pods := pods, PrometheusData := none }).Usage.GPUs = 0 ∧
    (GetResourcesStatus H { Node := node, Pods := pods, PrometheusData := none }).Usage.Memory = 0 ∧
    (GetResourcesStatus H { Node := node, Pods := pods, PrometheusData := none }).Usage.GPUMemory
      = 0 ∧
    (GetResourcesStatus H { Node := node, Pods := pods, PrometheusData := none }).NodeGPUs = [] := by
  have hU := kube_Usage H { Node := node, Pods := pods, PrometheusData := none }
  have hG := kube_NodeGPUs H { Node := node, Pods := pods, PrometheusData := none }
  simp [GetResourcesStatus, GetResourcesStatusAndLog, hU, hG]

/-- C9: for every node and pod list and any two values of `PrometheusData`, the
two statuses agree on Requested, Allocated, Limited, Capacity.CPUs,
Capacity.Memory, Capacity.GPUs, Allocatable, NumberOfFractionalAllocatedGpu and
GPUsInUse. -/
theorem metrics_frame (H : Helpers) (node : Node) (pods : List Pod)
    (d1 d2 : Option MetricResultsByQueryName) :
    (GetResourcesStatus H { Node := node, Pods := pods, PrometheusData := d1 }).Requested
      = (GetResourcesStatus H { Node := node, Pods := pods, PrometheusData := d2 }).Requested ∧
    (GetResourcesStatus H { Node := node, Pods := pods, PrometheusData := d1 }).Allocated
      = (GetResourcesStatus H { Node := node, Pods := pods, PrometheusData := d2 }).Allocated ∧
    (GetResourcesStatus H { Node := node, Pods := pods, PrometheusData := d1 }).Limited
      = (GetResourcesStatus H { Node := node, Pods := pods, PrometheusData := d2 }).Limited ∧
    (GetResourcesStatus H { Node := node, Pods := pods, PrometheusData := d1 }).Capacity.CPUs
      = (GetResourcesStatus H { Node := node, Pods := pods, PrometheusData := d2 }).Capacity.CPUs ∧
    (GetResourcesStatus H { Node := node, Pods := pods, PrometheusData := d1 }).Capacity.Memory
      = (GetResourcesStatus H
          { Node := node, Pods := pods, PrometheusData := d2 }).Capacity.Memory ∧
    (GetResourcesStatus H { Node := node, Pods := pods, PrometheusData := d1 }).Capacity.GPUs
      = (GetResourcesStatus H { Node := node, Pods := pods, PrometheusData := d2 }).Capacity.GPUs ∧
    (GetResourcesStatus H { Node := node, Pods := pods, PrometheusData := d1 }).Allocatable
      = (GetResourcesStatus H { Node := node, Pods := pods, PrometheusData := d2 }).Allocatable ∧
    (GetResourcesStatus H
        { Node := node, Pods := pods, PrometheusData := d1 }).NumberOfFractionalAllocatedGpu
      = (GetResourcesStatus H
          { Node := node, Pods := pods, PrometheusData := d2 }).NumberOfFractionalAllocatedGpu ∧
    (GetResourcesStatus H { Node := node, Pods := pods, PrometheusData := d1 }).GPUsInUse
      = (GetResourcesStatus H { Node := node, Pods := pods, PrometheusData := d2 }).GPUsInUse := by
  have h1 := status_frame H { Node := node, Pods := pods, PrometheusData := d1 }
  have h2 := status_frame H { Node := node, Pods := pods, PrometheusData := d2 }
  have hk := kube_congr H node pods d1 d2
  rw [hk] at h1
  obtain ⟨a1, a2, a3, a4, a5, a6, a7, a8, a9⟩ := h1
  obtain ⟨b1, b2, b3, b4, b5, b6, b7, b8, b9⟩ := h2
  exact ⟨a1.trans b1.symm, a2.trans b2.symm, a3.trans b3.symm, a4.trans b4.symm,
    a5.trans b5.symm, a6.trans b6.symm, a7.trans b7.symm, a8.trans b8.symm, a9.trans b9.symm⟩

/-- C10: with `PrometheusData` present, each of the six metric fields of the
status is what its own extraction wrote, whatever errors the other five
returned; a status is returned in every case, and the error handed to the debug
log is `hasError` of the six errors in argument order. -/
theorem extractions_independent (H : Helpers) (node : Node) (pods : List Pod)
    (data : MetricResultsByQueryName) :
    (GetResourcesStatus H { Node := node, Pods := pods, PrometheusData := some data }).Usage.CPUs
      = (H.SetFloatFromFirstMetric 0 data UsedCpusPQ).1 ∧
    (GetResourcesStatus H { Node := node, Pods := pods, PrometheusData := some data }).Usage.GPUs
      = (H.SetFloatFromFirstMetric 0 data UsedGpusPQ).1 ∧
    (GetResourcesStatus H { Node := node, Pods := pods, PrometheusData := some data }).Usage.Memory
      = (H.SetFloatFromFirstMetric 0 data UsedCpusMemoryPQ).1 ∧
    (GetResourcesStatus H
        { Node := node, Pods := pods, PrometheusData := some data }).Usage.GPUMemory
      = (H.SetFloatFromFirstMetric 0 data UsedGpusMemoryPQ).1 ∧
    (GetResourcesStatus H
        { Node := node, Pods := pods, PrometheusData := some data }).Capacity.GPUMemory
      = (H.SetFloatFromFirstMetric
          (rawCapacity H { Node := node, Pods := pods, PrometheusData := some data }).GPUMemory
          data TotalGpusMemoryPQ).1 ∧
    (GetResourcesStatus H { Node := node, Pods := pods, PrometheusData := some data }).NodeGPUs
      = (setGpusFromPromDataAndPods H [] data pods).1 ∧
    (GetResourcesStatusAndLog H { Node := node, Pods := pods, PrometheusData := some data }).2
      = hasError
          [(H.SetFloatFromFirstMetric 0 data UsedCpusPQ).2,
           (H.SetFloatFromFirstMetric 0 data UsedGpusPQ).2,
           (H.SetFloatFromFirstMetric 0 data UsedCpusMemoryPQ).2,
           (H.SetFloatFromFirstMetric 0 data UsedGpusMemoryPQ).2,
           (H.SetFloatFromFirstMetric
              (rawCapacity H { Node := node, Pods := pods, PrometheusData := some data }).GPUMemory
              data TotalGpusMemoryPQ).2,
           (setGpusFromPromDataAndPods H [] data pods).2] := by
  have hU := kube_Usage H { Node := node, Pods := pods, PrometheusData := some data }
  have hG := kube_NodeGPUs H { Node := node, Pods := pods, PrometheusData := some data }
  have hC := kube_Capacity H { Node := node, Pods := pods, PrometheusData := some data }
  have hM : (kubeResourcesStatus H
      { Node := node, Pods := pods, PrometheusData := some data }).Capacity.GPUMemory
      = (rawCapacity H { Node := node, Pods := pods, PrometheusData := some data }).GPUMemory := by
    rw [hC]
    split <;> rfl
  simp [GetResourcesStatus, GetResourcesStatusAndLog, extractPrometheusData, hU, hG, hM]

/-- C10 on `n1` with metrics that hold the `usedCpus` query only: the CPU usage
is extracted although the five other extractions fail, the failing fields keep
their zero values, and the first error (of `usedGpus`) goes to the debug log. -/
theorem extractions_independent_witness :
    (scenarioHelpers.SetFloatFromFirstMetric 0 cpuOnlyData UsedGpusPQ).2 = some UsedGpusPQ ∧
    (setGpusFromPromDataAndPods scenarioHelpers [] cpuOnlyData [podA, podB]).2
      = some GpuIdleTimePQ ∧
    (GetResourcesStatus scenarioHelpers
        { Node := n1, Pods := [podA, podB], PrometheusData := some cpuOnlyData }).Usage.CPUs = 37 ∧
    (GetResourcesStatus scenarioHelpers
        { Node := n1, Pods := [podA, podB], PrometheusData := some cpuOnlyData }).Usage.GPUs = 0 ∧
    (GetResourcesStatus scenarioHelpers
        { Node := n1, Pods := [podA, podB], PrometheusData := some cpuOnlyData }).NodeGPUs = [] ∧
    (GetResourcesStatusAndLog scenarioHelpers
        { Node := n1, Pods := [podA, podB], PrometheusData := some cpuOnlyData }).2
      = some UsedGpusPQ := by
  have h := extractions_independent scenarioHelpers n1 [podA, podB] cpuOnlyData
  have hcpu : scenarioHelpers.SetFloatFromFirstMetric 0 cpuOnlyData UsedCpusPQ = (37, none) :=
    rfl
  have hgpu : scenarioHelpers.SetFloatFromFirstMetric 0 cpuOnlyData UsedGpusPQ
      = (0, some UsedGpusPQ) := rfl
  have hset : setGpusFromPromDataAndPods scenarioHelpers [] cpuOnlyData [podA, podB]
      = ([], some GpuIdleTimePQ) := rfl
  obtain ⟨h1, h2, _, _, _, h6, h7⟩ := h
  rw [hcpu] at h1
  rw [hgpu] at h2
  rw [hset] at h6
  rw [hcpu, hgpu] at h7
  refine ⟨by rw [hgpu], by rw [hset], h1, h2, h6, ?_⟩
  rw [h7]
  rfl

/-! ## Lemmas on the loops -/

/-- A loop that appends one element per item builds the mapped list. -/
theorem foldl_append_singleton {α β : Type} (f : α → β) (l : List α) (init : List β) :
    l.foldl (fun acc a => acc ++ [f a]) init = init ++ l.map f := by
  induction l generalizing init with
  | nil => simp
  | cons a l ih => simp [List.foldl, ih]

/-- A loop that appends the items passing a test builds the filtered list. -/
theorem foldl_append_if {α : Type} (p : α → Prop) [DecidablePred p] (l : List α)
    (init : List α) :
    l.foldl (fun acc a => if p a then acc ++ [a] else acc) init
      = init ++ l.filter (fun a => decide (p a)) := by
  induction l generalizing init with
  | nil => simp
  | cons a l ih =>
    by_cases h : p a
    · simp [List.foldl, ih, h]
    · simp [List.foldl, ih, h]

/-- The records `setGpusFromPromDataAndPods` writes when the grouping succeeds:
one per entry of the grouping, in its order. -/
theorem setGpus_ok (H : Helpers) (value : List GPU) (data : MetricResultsByQueryName)
    (pods : List Pod) (g : GroupedMetrics)
    (hg : H.GroupMetrics "gpu" data gpuQueryNames = Except.ok g) :
    setGpusFromPromDataAndPods H value data pods
      = (g.entries.map
          (fun entry => gpuRecord H (H.GetSharedGPUsIndexUsedInPods pods) entry.1 entry.2),
         none) := by
  unfold gpuQueryNames at hg
  simp only [setGpusFromPromDataAndPods, hg]
  rw [foldl_append_singleton
    (fun entry : Sigma (fun _ : String => FloatMap) =>
      gpuRecord H (H.GetSharedGPUsIndexUsedInPods pods) entry.1 entry.2)]
  simp

/-- The node infos `GetAllNodeInfos` builds once both listings succeeded. -/
theorem getAllNodeInfos_ok (H : Helpers) (client : Cluster) (shouldQueryMetrics : Bool)
    (pods : List Pod) (nodes : List Node)
    (hp : client.AcquireAllActivePods = Except.ok pods)
    (hn : client.ListNodes = Except.ok nodes) :
    (GetAllNodeInfos H client shouldQueryMetrics).nodeInfoList
        = nodes.map (nodeInfoOf H pods (queryMetrics client shouldQueryMetrics).1) ∧
    (GetAllNodeInfos H client shouldQueryMetrics).warning
        = (queryMetrics client shouldQueryMetrics).2.1 ∧
    (GetAllNodeInfos H client shouldQueryMetrics).err = none ∧
    (GetAllNodeInfos H client shouldQueryMetrics).calls
        = [Call.AcquireAllActivePods, Call.ListNodes]
          ++ (queryMetrics client shouldQueryMetrics).2.2 := by
  simp only [GetAllNodeInfos, hp, hn]
  rw [foldl_append_singleton (nodeInfoOf H pods (queryMetrics client shouldQueryMetrics).1)]
  simp

theorem nodeInfoOf_Node (H : Helpers) (pods : List Pod) (promData : Option MetricResultsByItems)
    (node : Node) : (nodeInfoOf H pods promData node).Node = node := by
  unfold nodeInfoOf
  cases promData <;> rfl

theorem nodeInfoOf_Pods (H : Helpers) (pods : List Pod) (promData : Option MetricResultsByItems)
    (node : Node) :
    (nodeInfoOf H pods promData node).Pods = getPodsOnSpecificNode H node pods := by
  unfold nodeInfoOf
  cases promData <;> rfl

theorem append_ne_empty (a b : String) (ha : a ≠ "") : a ++ b ≠ "" := by
  intro h
  apply ha
  have hd := congrArg String.data h
  rw [String.data_append] at hd
  have hnil : a.data = [] := (List.append_eq_nil.mp hd).1
  exact String.ext hnil

theorem metricsWarning_ne_empty (promErr : Error) : metricsWarning promErr ≠ "" := by
  unfold metricsWarning
  apply append_ne_empty
  intro h
  have hd := congrArg String.data h
  simp at hd

/-- With the metrics client not built, or built while the grouped queries
return no map, the `if shouldQueryMetrics` block leaves `promData` nil and sets
a warning. -/
theorem queryMetrics_failed (client : Cluster)
    (hfail : (∃ e, client.BuildPrometheusClient = Except.error e) ∨
      (∃ c e, client.BuildPrometheusClient = Except.ok c ∧
        client.GroupMultiQueriesToItems c nodePQs promethesNodeLabelID = (none, some e))) :
    (queryMetrics client true).1 = none ∧ (queryMetrics client true).2.1 ≠ "" := by
  rcases hfail with ⟨e, he⟩ | ⟨c, e, hc, hq⟩
  · simp only [queryMetrics, he, if_true]
    exact ⟨trivial, metricsWarning_ne_empty e⟩
  · simp only [queryMetrics, hc, hq, if_true]
    exact ⟨trivial, metricsWarning_ne_empty e⟩

/-! ## C11 to C13: the snapshot of all nodes -/

/-- C11: with `shouldQueryMetrics` true, both listings succeeding and the
metrics degraded (the client cannot be built, or the grouped queries fail and
hand back no map), `GetAllNodeInfos` returns a nil error, a non-empty warning
and one NodeInfo for every listed node, each with nil `PrometheusData`. -/
theorem getAllNodeInfos_metrics_degraded (H : Helpers) (client : Cluster)
    (pods : List Pod) (nodes : List Node)
    (hp : client.AcquireAllActivePods = Except.ok pods)
    (hn : client.ListNodes = Except.ok nodes)
    (hfail : (∃ e, client.BuildPrometheusClient = Except.error e) ∨
      (∃ c e, client.BuildPrometheusClient = Except.ok c ∧
        client.GroupMultiQueriesToItems c nodePQs promethesNodeLabelID = (none, some e))) :
    (GetAllNodeInfos H client true).err = none ∧
    (GetAllNodeInfos H client true).warning ≠ "" ∧
    (GetAllNodeInfos H client true).nodeInfoList.length = nodes.length ∧
    (GetAllNodeInfos H client true).nodeInfoList.map NodeInfo.Node = nodes ∧
    (∀ nodeInfo ∈ (GetAllNodeInfos H client true).nodeInfoList,
      nodeInfo.PrometheusData = none) := by
  obtain ⟨hlist, hwarn, herr, _⟩ := getAllNodeInfos_ok H client true pods nodes hp hn
  obtain ⟨hdata, hne⟩ := queryMetrics_failed client hfail
  rw [hlist, hwarn, hdata]
  refine ⟨herr, hne, by simp, ?_, ?_⟩
  · rw [List.map_map]
    have hfun : NodeInfo.Node ∘ nodeInfoOf H pods none = id := by
      funext node
      exact nodeInfoOf_Node H pods none node
    rw [hfun, List.map_id]
  · intro nodeInfo hmem
    obtain ⟨node, _, hnode⟩ := List.mem_map.mp hmem
    rw [← hnode]
    rfl

/-- C11 on two clusters of nodes `n1` and `n2`: one whose metrics client cannot
be built, one whose grouped queries fail. -/
theorem getAllNodeInfos_metrics_degraded_witness :
    ((GetAllNodeInfos scenarioHelpers noMetricsCluster true).err = none ∧
      (GetAllNodeInfos scenarioHelpers noMetricsCluster true).warning ≠ "" ∧
      (GetAllNodeInfos scenarioHelpers noMetricsCluster true).nodeInfoList.length = 2 ∧
      (GetAllNodeInfos scenarioHelpers noMetricsCluster true).nodeInfoList.map NodeInfo.Node
        = [n1, n2] ∧
      (∀ nodeInfo ∈ (GetAllNodeInfos scenarioHelpers noMetricsCluster true).nodeInfoList,
        nodeInfo.PrometheusData = none)) ∧
    ((GetAllNodeInfos scenarioHelpers queryFailsCluster true).err = none ∧
      (GetAllNodeInfos scenarioHelpers queryFailsCluster true).warning ≠ "" ∧
      (GetAllNodeInfos scenarioHelpers queryFailsCluster true).nodeInfoList.length = 2 ∧
      (GetAllNodeInfos scenarioHelpers queryFailsCluster true).nodeInfoList.map NodeInfo.Node
        = [n1, n2] ∧
      (∀ nodeInfo ∈ (GetAllNodeInfos scenarioHelpers queryFailsCluster true).nodeInfoList,
        nodeInfo.PrometheusData = none)) :=
  ⟨getAllNodeInfos_metrics_degraded scenarioHelpers noMetricsCluster
      [podA, podElsewhere, podB, podDone, podPending] [n1, n2] rfl rfl
      (Or.inl ⟨"no prometheus service", rfl⟩),
    getAllNodeInfos_metrics_degraded scenarioHelpers queryFailsCluster
      [podA, podElsewhere, podB, podDone, podPending] [n1, n2] rfl rfl
      (Or.inr ⟨{ Address := "prometheus:9090" }, "unreachable", rfl, rfl⟩)⟩

/-- C12: when the pod listing fails, `GetAllNodeInfos` returns its error, no
NodeInfo and an empty warning after that single call; when the pod listing
succeeds and the node listing fails, it returns that error, no NodeInfo and an
empty warning after the two listing calls; when both succeed the error is nil. -/
theorem getAllNodeInfos_listing_errors (H : Helpers) (client : Cluster)
    (shouldQueryMetrics : Bool) :
    (∀ e, client.AcquireAllActivePods = Except.error e →
      (GetAllNodeInfos H client shouldQueryMetrics).err = some e ∧
      (GetAllNodeInfos H client shouldQueryMetrics).nodeInfoList = [] ∧
      (GetAllNodeInfos H client shouldQueryMetrics).warning = "" ∧
      (GetAllNodeInfos H client shouldQueryMetrics).calls = [Call.AcquireAllActivePods]) ∧
    (∀ pods e, client.AcquireAllActivePods = Except.ok pods →
      client.ListNodes = Except.error e →
      (GetAllNodeInfos H client shouldQueryMetrics).err = some e ∧
      (GetAllNodeInfos H client shouldQueryMetrics).nodeInfoList = [] ∧
      (GetAllNodeInfos H client shouldQueryMetrics).warning = "" ∧
      (GetAllNodeInfos H client shouldQueryMetrics).calls
        = [Call.AcquireAllActivePods, Call.ListNodes]) ∧
    (∀ pods nodes, client.AcquireAllActivePods = Except.ok pods →
      client.ListNodes = Except.ok nodes →
      (GetAllNodeInfos H client shouldQueryMetrics).err = none) := by
  refine ⟨?_, ?_, ?_⟩
  · intro e he
    simp [GetAllNodeInfos, he]
  · intro pods e hp he
    simp [GetAllNodeInfos, hp, he]
  · intro pods nodes hp hn
    exact (getAllNodeInfos_ok H client shouldQueryMetrics pods nodes hp hn).2.2.1

/-- C12 on a cluster whose pod listing fails and on one whose node listing
fails, metrics requested: the listing error comes back, with no NodeInfo, no
warning and no call on the metrics backend. -/
theorem getAllNodeInfos_listing_errors_witness :
    ((GetAllNodeInfos scenarioHelpers noPodsCluster true).err = some "pods: forbidden" ∧
      (GetAllNodeInfos scenarioHelpers noPodsCluster true).nodeInfoList = [] ∧
      (GetAllNodeInfos scenarioHelpers noPodsCluster true).warning = "" ∧
      (GetAllNodeInfos scenarioHelpers noPodsCluster true).calls
        = [Call.AcquireAllActivePods]) ∧
    ((GetAllNodeInfos scenarioHelpers noNodesCluster true).err = some "nodes: forbidden" ∧
      (GetAllNodeInfos scenarioHelpers noNodesCluster true).nodeInfoList = [] ∧
      (GetAllNodeInfos scenarioHelpers noNodesCluster true).warning = "" ∧
      (GetAllNodeInfos scenarioHelpers noNodesCluster true).calls
        = [Call.AcquireAllActivePods, Call.ListNodes]) :=
  ⟨(getAllNodeInfos_listing_errors scenarioHelpers noPodsCluster true).1 "pods: forbidden" rfl,
    (getAllNodeInfos_listing_errors scenarioHelpers noNodesCluster true).2.1
      [podA, podElsewhere, podB, podDone, podPending] "nodes: forbidden" rfl rfl⟩

/-- C13: when both listings succeed, `GetAllNodeInfos` returns one NodeInfo per
listed node in the order of the listing: the nodes of the result are the listed
nodes, and the pods of each are `getPodsOnSpecificNode` of its node over the one
list of active pods. -/
theorem getAllNodeInfos_one_per_node (H : Helpers) (client : Cluster)
    (shouldQueryMetrics : Bool) (pods : List Pod) (nodes : List Node)
    (hp : client.AcquireAllActivePods = Except.ok pods)
    (hn : client.ListNodes = Except.ok nodes) :
    (GetAllNodeInfos H client shouldQueryMetrics).nodeInfoList.length = nodes.length ∧
    (GetAllNodeInfos H client shouldQueryMetrics).nodeInfoList.map NodeInfo.Node = nodes ∧
    (GetAllNodeInfos H client shouldQueryMetrics).nodeInfoList.map NodeInfo.Pods
      = nodes.map (fun node => getPodsOnSpecificNode H node pods) := by
  obtain ⟨hlist, _, _, _⟩ := getAllNodeInfos_ok H client shouldQueryMetrics pods nodes hp hn
  rw [hlist]
  refine ⟨by simp, ?_, ?_⟩
  · rw [List.map_map]
    have hfun : NodeInfo.Node ∘ nodeInfoOf H pods (queryMetrics client shouldQueryMetrics).1
        = id := by
      funext node
      exact nodeInfoOf_Node H pods _ node
    rw [hfun, List.map_id]
  · rw [List.map_map]
    apply List.map_congr_left
    intro node _
    exact nodeInfoOf_Pods H pods _ node

/-- C13 on the cluster of `n1` and `n2` with five active pods: `n1` gets its
two running pods and its pending one, `n2` its single pod, in listing order. -/
theorem getAllNodeInfos_one_per_node_witness :
    (GetAllNodeInfos scenarioHelpers noMetricsCluster false).nodeInfoList.length = 2 ∧
    (GetAllNodeInfos scenarioHelpers noMetricsCluster false).nodeInfoList.map NodeInfo.Node
      = [n1, n2] ∧
    (GetAllNodeInfos scenarioHelpers noMetricsCluster false).nodeInfoList.map NodeInfo.Pods
      = [[podA, podB, podPending], [podElsewhere]] := by
  have h := getAllNodeInfos_one_per_node scenarioHelpers noMetricsCluster false
    [podA, podElsewhere, podB, podDone, podPending] [n1, n2] rfl rfl
  refine ⟨h.1, h.2.1, ?_⟩
  rw [h.2.2]
  rfl

/-! ## C14 to C16: the per-GPU records -/

theorem FloatMap.lookup_singleton_self (k : String) (v : ℚ) :
    (AList.singleton k v : FloatMap).lookup k = some v := by
  simp [AList.singleton, AList.lookup, List.dlookup]

/-- The fractional map of the two pods of the scenario: index 0 with the
accumulated share 0.8. -/
theorem scenario_sharedGPUs :
    scenarioHelpers.GetSharedGPUsIndexUsedInPods [podA, podB]
      = (∅ : FloatMap).insert "0" (4 / 5) := by
  simp only [scenarioHelpers, specHelpers, specSharedGPUs, podA, podB, FloatMap.at, List.foldl]
  simp only [AList.insert_empty, FloatMap.lookup_singleton_self, AList.lookup_empty, Option.getD]
  simp
  norm_num

/-- The `Allocated` field of the record of one group. -/
theorem gpuRecord_Allocated (H : Helpers) (fractionAllocatedGpus : FloatMap) (gpuIndex : String)
    (valuesByQueryNames : FloatMap) :
    (gpuRecord H fractionAllocatedGpus gpuIndex valuesByQueryNames).Allocated
      = (match fractionAllocatedGpus.lookup gpuIndex with
          | some fractionAllocated => fractionAllocated
          | none => valuesByQueryNames.at GpuUsedByPod) := by
  rfl

/-- C14: when the grouping succeeds, every GPU record written by
`setGpusFromPromDataAndPods` stems from a group of the metrics with the record's
index, and its `Allocated` is the value of the fractional map for that index
when the index is a key of the map, and the group's `gpuUsedByPod` value
otherwise. -/
theorem setGpus_allocated (H : Helpers) (value : List GPU) (data : MetricResultsByQueryName)
    (pods : List Pod) (g : GroupedMetrics)
    (hg : H.GroupMetrics "gpu" data gpuQueryNames = Except.ok g) :
    ∀ r ∈ (setGpusFromPromDataAndPods H value data pods).1,
      ∃ valuesByQueryNames, g.lookup r.IndexID = some valuesByQueryNames ∧
        r.Allocated
          = (match (H.GetSharedGPUsIndexUsedInPods pods).lookup r.IndexID with
              | some fractionAllocated => fractionAllocated
              | none => valuesByQueryNames.at GpuUsedByPod) := by
  intro r hr
  rw [setGpus_ok H value data pods g hg] at hr
  obtain ⟨entry, hmem, hrec⟩ := List.mem_map.mp hr
  refine ⟨entry.2, ?_, ?_⟩
  · rw [← hrec]
    exact AList.mem_lookup_iff.mpr hmem
  · rw [← hrec]
    rfl

/-- C14 for two pods sharing index 0 at 0.5 and 0.3 and metrics reporting
devices 0 and 1 as used (100): the record of index 0 has `Allocated` 0.8, that
of index 1 keeps the metric value 100. -/
theorem setGpus_allocated_witness :
    (setGpusFromPromDataAndPods scenarioHelpers [] gpuData [podA, podB]).1.map
        (fun r => (r.IndexID, r.Allocated)) = [("1", 100), ("0", 4 / 5)] ∧
    (∀ r ∈ (setGpusFromPromDataAndPods scenarioHelpers [] gpuData [podA, podB]).1,
      ∃ valuesByQueryNames,
        (((∅ : GroupedMetrics).insert "0" ((∅ : FloatMap).insert GpuUsedByPod 100)).insert "1"
            ((∅ : FloatMap).insert GpuUsedByPod 100)).lookup r.IndexID
          = some valuesByQueryNames ∧
        r.Allocated
          = (match (scenarioHelpers.GetSharedGPUsIndexUsedInPods [podA, podB]).lookup r.IndexID
              with
              | some fractionAllocated => fractionAllocated
              | none => valuesByQueryNames.at GpuUsedByPod)) := by
  have hg : scenarioHelpers.GroupMetrics "gpu" gpuData gpuQueryNames
      = Except.ok (((∅ : GroupedMetrics).insert "0" ((∅ : FloatMap).insert GpuUsedByPod 100)).insert
          "1" ((∅ : FloatMap).insert GpuUsedByPod 100)) := rfl
  refine ⟨?_, setGpus_allocated scenarioHelpers [] gpuData [podA, podB] _ hg⟩
  rw [setGpus_ok scenarioHelpers [] gpuData [podA, podB] _ hg]
  simp only [List.map_map]
  have h1 : (gpuRecord scenarioHelpers (scenarioHelpers.GetSharedGPUsIndexUsedInPods [podA, podB])
      "1" ((∅ : FloatMap).insert GpuUsedByPod 100)).Allocated = 100 := by
    rw [gpuRecord_Allocated, scenario_sharedGPUs]
    rfl
  have h0 : (gpuRecord scenarioHelpers (scenarioHelpers.GetSharedGPUsIndexUsedInPods [podA, podB])
      "0" ((∅ : FloatMap).insert GpuUsedByPod 100)).Allocated = 4 / 5 := by
    rw [gpuRecord_Allocated, scenario_sharedGPUs, AList.insert_empty,
      FloatMap.lookup_singleton_self]
  have hentries : (((∅ : GroupedMetrics).insert "0" ((∅ : FloatMap).insert GpuUsedByPod 100)).insert
      "1" ((∅ : FloatMap).insert GpuUsedByPod 100)).entries
      = [⟨"1", (∅ : FloatMap).insert GpuUsedByPod 100⟩,
         ⟨"0", (∅ : FloatMap).insert GpuUsedByPod 100⟩] := rfl
  rw [hentries]
  simp only [List.map, Function.comp]
  rw [h1, h0]
  rfl

/-- C15: when the grouping succeeds, `setGpusFromPromDataAndPods` writes one
record per key of the grouped metrics and no other: the IndexIDs of the records
are the keys of the grouping, their number is the number of keys, no IndexID
occurs twice, and an index that is no key of the grouping (also one that is a
key of the fractional map) has no record. -/
theorem setGpus_one_record_per_key (H : Helpers) (value : List GPU)
    (data : MetricResultsByQueryName) (pods : List Pod) (g : GroupedMetrics)
    (hg : H.GroupMetrics "gpu" data gpuQueryNames = Except.ok g) :
    (setGpusFromPromDataAndPods H value data pods).1.map GPU.IndexID = g.keys ∧
    (setGpusFromPromDataAndPods H value data pods).1.length = g.keys.length ∧
    ((setGpusFromPromDataAndPods H value data pods).1.map GPU.IndexID).Nodup ∧
    (∀ gpuIndex, gpuIndex ∉ g →
      ∀ r ∈ (setGpusFromPromDataAndPods H value data pods).1, r.IndexID ≠ gpuIndex) := by
  have hkeys : (setGpusFromPromDataAndPods H value data pods).1.map GPU.IndexID = g.keys := by
    rw [setGpus_ok H value data pods g hg]
    simp only [List.map_map]
    unfold AList.keys List.keys
    apply List.map_congr_left
    intro entry _
    rfl
  refine ⟨hkeys, ?_, ?_, ?_⟩
  · rw [← hkeys, List.length_map]
  · rw [hkeys]
    exact g.keys_nodup
  · intro gpuIndex hnot r hr hidx
    apply hnot
    have hmem : gpuIndex ∈ g.keys := by
      rw [← hkeys, ← hidx]
      exact List.mem_map_of_mem GPU.IndexID hr
    exact AList.mem_keys.mp hmem

/-- C15 for two pods sharing index 0 while the metrics know device 1 only: the
single record is that of index 1, and index 0, a key of the fractional map, has
none. -/
theorem setGpus_one_record_per_key_witness :
    (scenarioHelpers.GetSharedGPUsIndexUsedInPods [podA, podB]).lookup "0" = some (4 / 5) ∧
    (setGpusFromPromDataAndPods scenarioHelpers [] gpuOneData [podA, podB]).1.map GPU.IndexID
      = ["1"] ∧
    (setGpusFromPromDataAndPods scenarioHelpers [] gpuOneData [podA, podB]).1.length = 1 ∧
    (∀ r ∈ (setGpusFromPromDataAndPods scenarioHelpers [] gpuOneData [podA, podB]).1,
      r.IndexID ≠ "0") := by
  have hg : scenarioHelpers.GroupMetrics "gpu" gpuOneData gpuQueryNames
      = Except.ok ((∅ : GroupedMetrics).insert "1" ((∅ : FloatMap).insert GpuUsedByPod 100)) :=
    rfl
  have h := setGpus_one_record_per_key scenarioHelpers [] gpuOneData [podA, podB] _ hg
  refine ⟨?_, h.1, h.2.1, h.2.2.2 "0" ?_⟩
  · rw [scenario_sharedGPUs, AList.insert_empty, FloatMap.lookup_singleton_self]
  · decide

/-- A metric name a group lacks reads as zero: adding it with value 0 changes
no lookup of the group. -/
theorem FloatMap.at_insert_zero (m : FloatMap) (name key : String)
    (hmiss : m.lookup name = none) :
    FloatMap.at (m.insert name 0) key = m.at key := by
  unfold FloatMap.at
  by_cases h : key = name
  · subst h
    rw [AList.lookup_insert, hmiss]
    rfl
  · rw [AList.lookup_insert_ne h]

/-- C16 fails: for device 1 the metrics either lack the idle time altogether or
report it as 0; the two groupings differ (the key `gpuIdleTime` is absent in one
and present in the other), yet `setGpusFromPromDataAndPods` writes the same
records for both. -/
theorem setGpus_unknown_is_zero :
    scenarioHelpers.GroupMetrics "gpu" gpuOneData gpuQueryNames
      = Except.ok ((∅ : GroupedMetrics).insert "1" ((∅ : FloatMap).insert GpuUsedByPod 100)) ∧
    scenarioHelpers.GroupMetrics "gpu" gpuOneIdleZeroData gpuQueryNames
      = Except.ok ((∅ : GroupedMetrics).insert "1"
          (((∅ : FloatMap).insert GpuUsedByPod 100).insert GpuIdleTimePQ 0)) ∧
    ((∅ : FloatMap).insert GpuUsedByPod 100).lookup GpuIdleTimePQ = none ∧
    (((∅ : FloatMap).insert GpuUsedByPod 100).insert GpuIdleTimePQ 0).lookup GpuIdleTimePQ
      = some 0 ∧
    setGpusFromPromDataAndPods scenarioHelpers [] gpuOneData [podA, podB]
      = setGpusFromPromDataAndPods scenarioHelpers [] gpuOneIdleZeroData [podA, podB] := by
  refine ⟨rfl, rfl, rfl, rfl, ?_⟩
  rw [setGpus_ok scenarioHelpers [] gpuOneData [podA, podB] _ rfl,
    setGpus_ok scenarioHelpers [] gpuOneIdleZeroData [podA, podB] _ rfl]
  rfl

/-- C16 as the code has it: `setGpusFromPromDataAndPods` reads a metric name a
group lacks as zero, so the record of a group that lacks a metric name equals
the record of the same group with that metric present and equal to 0. -/
theorem gpuRecord_unknown_is_zero (H : Helpers) (fractionAllocatedGpus : FloatMap)
    (gpuIndex : String) (valuesByQueryNames : FloatMap) (name : String)
    (hmiss : valuesByQueryNames.lookup name = none) :
    gpuRecord H fractionAllocatedGpus gpuIndex (valuesByQueryNames.insert name 0)
      = gpuRecord H fractionAllocatedGpus gpuIndex valuesByQueryNames := by
  unfold gpuRecord
  simp only [FloatMap.at_insert_zero valuesByQueryNames name _ hmiss]

/-- C16 as amended, for the group of device 1 lacking `gpuIdleTime`. -/
theorem gpuRecord_unknown_is_zero_witness :
    ((∅ : FloatMap).insert GpuUsedByPod 100).lookup GpuIdleTimePQ = none ∧
    gpuRecord scenarioHelpers (scenarioHelpers.GetSharedGPUsIndexUsedInPods [podA, podB]) "1"
        (((∅ : FloatMap).insert GpuUsedByPod 100).insert GpuIdleTimePQ 0)
      = gpuRecord scenarioHelpers (scenarioHelpers.GetSharedGPUsIndexUsedInPods [podA, podB]) "1"
        ((∅ : FloatMap).insert GpuUsedByPod 100) :=
  ⟨rfl, gpuRecord_unknown_is_zero scenarioHelpers
    (scenarioHelpers.GetSharedGPUsIndexUsedInPods [podA, podB]) "1"
    ((∅ : FloatMap).insert GpuUsedByPod 100) GpuIdleTimePQ rfl⟩

/-! ## C18: pods of a Ready node -/

/-- C18: for a Ready node, `getPodsOnSpecificNode` returns the active pods
filtered, in their order, by: bound to the node's name and in phase Running or
Pending. The result is thus a sublist of the active pods, and a pod occurs in it
as often as in the active pods when it matches and not at all otherwise. -/
theorem getPodsOnSpecificNode_ready (H : Helpers) (node : Node) (allActivePods : List Pod)
    (h : H.IsNodeReady node = true) :
    getPodsOnSpecificNode H node allActivePods
      = allActivePods.filter (fun pod =>
          decide (pod.Spec.NodeName = node.Name ∧
            (pod.Status.Phase = PodPhase.PodRunning ∨ pod.Status.Phase = PodPhase.PodPending))) ∧
    (getPodsOnSpecificNode H node allActivePods).Sublist allActivePods ∧
    (∀ pod, (getPodsOnSpecificNode H node allActivePods).count pod
      = if pod.Spec.NodeName = node.Name ∧
          (pod.Status.Phase = PodPhase.PodRunning ∨ pod.Status.Phase = PodPhase.PodPending)
        then allActivePods.count pod else 0) := by
  have hfilter : getPodsOnSpecificNode H node allActivePods
      = allActivePods.filter (fun pod =>
          decide (pod.Spec.NodeName = node.Name ∧
            (pod.Status.Phase = PodPhase.PodRunning ∨ pod.Status.Phase = PodPhase.PodPending))) := by
    unfold getPodsOnSpecificNode
    simp only [h, Bool.not_true, Bool.false_eq_true, if_false]
    rw [foldl_append_if (fun pod : Pod => pod.Spec.NodeName = node.Name ∧
      (pod.Status.Phase = PodPhase.PodRunning ∨ pod.Status.Phase = PodPhase.PodPending))]
    simp
  refine ⟨hfilter, ?_, ?_⟩
  · rw [hfilter]
    exact List.filter_sublist _
  · intro pod
    rw [hfilter]
    by_cases hpod : pod.Spec.NodeName = node.Name ∧
        (pod.Status.Phase = PodPhase.PodRunning ∨ pod.Status.Phase = PodPhase.PodPending)
    · rw [if_pos hpod]
      exact List.count_filter (by simpa using hpod)
    · rw [if_neg hpod]
      apply List.count_eq_zero_of_not_mem
      intro hmem
      have hp := (List.mem_filter.mp hmem).2
      exact hpod (by simpa using hp)

/-- C18 on Ready node `n1` with five active pods: the two running pods and the
pending pod bound to `n1` are returned in their order; the pod bound to `n2` and
the finished pod are left out. -/
theorem getPodsOnSpecificNode_ready_witness :
    scenarioHelpers.IsNodeReady n1 = true ∧
    getPodsOnSpecificNode scenarioHelpers n1 [podA, podElsewhere, podB, podDone, podPending]
      = [podA, podB, podPending] ∧
    (getPodsOnSpecificNode scenarioHelpers n1
      [podA, podElsewhere, podB, podDone, podPending]).Sublist
      [podA, podElsewhere, podB, podDone, podPending] := by
  have h := getPodsOnSpecificNode_ready scenarioHelpers n1
    [podA, podElsewhere, podB, podDone, podPending] rfl
  refine ⟨rfl, ?_, h.2.1⟩
  rw [h.1]
  rfl

end RunaiNodes

namespace RunaiFlags

/-! ## C17: the set-default-project message -/

/-- The -b branch of `getNamespaceInfoToUseFromProjectFlag`: namespace
`default`, empty project name, `BackwardCompatability` set, no error. -/
theorem backward_branch (env : Env)
    (hb : ParseBool (getFlagValue env env.BackwardCompitableFlag) = Except.ok true) :
    getNamespaceInfoToUseFromProjectFlag env
      = ({ Namespace := "default", ProjectName := "", BackwardCompatability := true }, none) := by
  simp [getNamespaceInfoToUseFromProjectFlag, hb]

/-- Outside the -b branch a resolved NamespaceInfo has `BackwardCompatability`
unset. -/
theorem not_backward_branch (env : Env)
    (hb : ParseBool (getFlagValue env env.BackwardCompitableFlag) = Except.ok false) :
    (getNamespaceInfoToUseFromProjectFlag env).1.BackwardCompatability = false := by
  simp only [getNamespaceInfoToUseFromProjectFlag, hb]
  by_cases hp : getFlagValue env env.ProjectFlag = ""
  · simp only [hp]
    cases h : (getProjectRelatedToNamespace env env.GetDefaultNamespace).2 <;> simp [h]
  · simp [hp]

/-- C17: when the NamespaceInfo is resolved without error,
`GetNamespaceToUseFromProjectFlag` prints the set-default message exactly when
the project name is empty and `BackwardCompatability` is unset, and
`GetNamespaceToUseFromProjectFlagAndPrintError` prints it exactly when the
project name is empty; each prints nothing otherwise and returns the resolved
NamespaceInfo. `BackwardCompatability` is set exactly when the -b flag parses
as true, and then the resolved project name is empty, so the latter prints and
the former does not. -/
theorem set_default_message (env : Env)
    (hok : (getNamespaceInfoToUseFromProjectFlag env).2 = none) :
    (GetNamespaceToUseFromProjectFlag env).2
      = (if (getNamespaceInfoToUseFromProjectFlag env).1.ProjectName = "" ∧
            (getNamespaceInfoToUseFromProjectFlag env).1.BackwardCompatability = false
          then [setDefaultMessage] else []) ∧
    (GetNamespaceToUseFromProjectFlagAndPrintError env).2
      = (if (getNamespaceInfoToUseFromProjectFlag env).1.ProjectName = ""
          then [setDefaultMessage] else []) ∧
    (GetNamespaceToUseFromProjectFlag env).1
      = ((getNamespaceInfoToUseFromProjectFlag env).1, none) ∧
    (GetNamespaceToUseFromProjectFlagAndPrintError env).1
      = ((getNamespaceInfoToUseFromProjectFlag env).1, none) ∧
    ((getNamespaceInfoToUseFromProjectFlag env).1.BackwardCompatability = true
      ↔ ParseBool (getFlagValue env env.BackwardCompitableFlag) = Except.ok true) ∧
    (ParseBool (getFlagValue env env.BackwardCompitableFlag) = Except.ok true →
      (getNamespaceInfoToUseFromProjectFlag env).1.ProjectName = "" ∧
      (GetNamespaceToUseFromProjectFlagAndPrintError env).2 = [setDefaultMessage] ∧
      (GetNamespaceToUseFromProjectFlag env).2 = []) := by
  have hprint : ∀ ignore : Bool, getNamespaceToUseFromProjectFlag env ignore
      = (((getNamespaceInfoToUseFromProjectFlag env).1, none),
          if shouldPrintSetDefaultMessage (getNamespaceInfoToUseFromProjectFlag env).1 ignore
          then [setDefaultMessage] else []) := by
    intro ignore
    simp only [getNamespaceToUseFromProjectFlag, hok]
    split <;> rfl
  have hfalse : (GetNamespaceToUseFromProjectFlag env).2
      = (if (getNamespaceInfoToUseFromProjectFlag env).1.ProjectName = "" ∧
            (getNamespaceInfoToUseFromProjectFlag env).1.BackwardCompatability = false
          then [setDefaultMessage] else []) := by
    unfold GetNamespaceToUseFromProjectFlag
    rw [hprint false]
    simp [shouldPrintSetDefaultMessage]
  have htrue : (GetNamespaceToUseFromProjectFlagAndPrintError env).2
      = (if (getNamespaceInfoToUseFromProjectFlag env).1.ProjectName = ""
          then [setDefaultMessage] else []) := by
    unfold GetNamespaceToUseFromProjectFlagAndPrintError
    rw [hprint true]
    simp [shouldPrintSetDefaultMessage]
  refine ⟨hfalse, htrue, ?_, ?_, ?_, ?_⟩
  · unfold GetNamespaceToUseFromProjectFlag
    rw [hprint false]
  · unfold GetNamespaceToUseFromProjectFlagAndPrintError
    rw [hprint true]
  · cases hb : ParseBool (getFlagValue env env.BackwardCompitableFlag) with
    | error err =>
      have herr : (getNamespaceInfoToUseFromProjectFlag env).2 = some err := by
        simp [getNamespaceInfoToUseFromProjectFlag, hb]
      rw [hok] at herr
      exact absurd herr (by simp)
    | ok b =>
      cases b with
      | true => simp [backward_branch env hb]
      | false => simp [not_backward_branch env hb]
  · intro hb
    have hbranch := backward_branch env hb
    rw [hfalse, htrue, hbranch]
    simp

/-- C17 on three invocations: with -b the project name is empty, the
AndPrintError variant prints and the plain variant does not; without -b and
without a project both print; with `-p team-a` neither prints. -/
theorem set_default_message_witness :
    ((GetNamespaceToUseFromProjectFlagAndPrintError backwardEnv).2 = [setDefaultMessage] ∧
      (GetNamespaceToUseFromProjectFlag backwardEnv).2 = []) ∧
    ((GetNamespaceToUseFromProjectFlagAndPrintError noProjectEnv).2 = [setDefaultMessage] ∧
      (GetNamespaceToUseFromProjectFlag noProjectEnv).2 = [setDefaultMessage]) ∧
    ((GetNamespaceToUseFromProjectFlagAndPrintError projectEnv).2 = [] ∧
      (GetNamespaceToUseFromProjectFlag projectEnv).2 = []) := by
  have hb := (set_default_message backwardEnv rfl).2.2.2.2.2 rfl
  have hn := set_default_message noProjectEnv rfl
  have hp := set_default_message projectEnv rfl
  refine ⟨⟨hb.2.1, hb.2.2⟩, ⟨?_, ?_⟩, ⟨?_, ?_⟩⟩
  · rw [hn.2.1]; rfl
  · rw [hn.1]; rfl
  · rw [hp.2.1]; rfl
  · rw [hp.1]; rfl

end RunaiFlags
